import Mathlib

/-!
# ModelBody: model, collision proxy and frame registration

A shallow embedding of `src/ModelBody.cpp` (Pioneer).  A `ModelBody` is a `Body`
that owns a model instance and a collision proxy (`Geom`) and keeps the proxy
registered in the static or dynamic partition of its current `Frame`.

Pointers are modelled as `Option`: `none` is the null pointer.  A call through a
null pointer is a fault, so an operation that can make one returns `Except Fault`;
the operations that guard every dereference are total functions.
-/

namespace Pioneer

/-! ## Values -/

/-- A double-precision value.  The operations embedded here only store and copy
scalars, so a value is identified by its IEEE-754 bit pattern. -/
structure Scalar where
  bits : Nat
deriving DecidableEq, Repr

/-- The type `vector3d` of the source: three doubles. -/
structure vector3d where
  x : Scalar
  y : Scalar
  z : Scalar
deriving DecidableEq, Repr

/-- The type `matrix3x3d` of the source: nine doubles. -/
structure matrix3x3d where
  c0 : vector3d
  c1 : vector3d
  c2 : vector3d
deriving DecidableEq, Repr

/-- Positive zero. -/
def Scalar.zero : Scalar := ⟨0⟩

/-- The double 1.0. -/
def Scalar.one : Scalar := ⟨0x3FF0000000000000⟩

/-- The zero vector. -/
def vector3d.zero : vector3d := ⟨Scalar.zero, Scalar.zero, Scalar.zero⟩

/-- The identity orientation. -/
def matrix3x3d.identity : matrix3x3d :=
  ⟨⟨Scalar.one, Scalar.zero, Scalar.zero⟩,
   ⟨Scalar.zero, Scalar.one, Scalar.zero⟩,
   ⟨Scalar.zero, Scalar.zero, Scalar.one⟩⟩

/-- A frame is named by a handle; `Frame *` is `Option FrameId`. -/
abbrev FrameId := Nat

/-- A `Geom *` as the frame sees it: the identity of a proxy object, or null. -/
abbrev GeomPtr := Option Nat

/-! ## Collaborators that are not in the source -/

/-- Modelled from the spec: the Collision Mesh (`CollMesh` is not in the source),
"geometry plus an axis-aligned bounding volume from which physicalRadius is
computed as the volume's radius".  `aabbRadius` is `GetAabb().GetRadius()`,
`geomTree` is `GetGeomTree()`. -/
structure CollMesh where
  aabbRadius : Scalar
  geomTree : Nat
deriving DecidableEq, Repr

/-- Modelled from the spec: the shared immutable model asset returned by the model
lookup (`Pi::FindModel` is not in the source); it determines the draw-clip radius
and the collision data of its instances. -/
structure ModelAsset where
  drawClipRadius : Scalar
  aabbRadius : Scalar
  geomTree : Nat
deriving DecidableEq, Repr

/-- One primitive of the serialization stream. -/
inductive Tok where
  | Bool (b : Bool)
  | String (s : String)
  | Int (n : Nat)
deriving DecidableEq, Repr

/-- Modelled from the spec: the serialization stream (`Serializer` is not in the
source), "ordered primitive writers/readers".  A writer appends at the end, a
reader consumes from the front. -/
abbrev Stream := List Tok

/-- Modelled from the spec: `Serializer::Reader::Bool`, which is not in the source;
reads one bool, failing on anything else. -/
def Reader.Bool : Stream → Option (Bool × Stream)
  | Tok.Bool b :: rest => some (b, rest)
  | _ => none

/-- Modelled from the spec: `Serializer::Reader::String`, which is not in the
source; reads one string, failing on anything else. -/
def Reader.String : Stream → Option (String × Stream)
  | Tok.String t :: rest => some (t, rest)
  | _ => none

/-- Modelled from the spec: the Model Instance (`SceneGraph::Model` is not in the
source), "an independently owned, per-entity instantiation of a shared immutable
model asset" with per-instance state of its own. -/
structure Model where
  asset : ModelAsset
  instState : List Tok
deriving DecidableEq, Repr

/-- Modelled from the spec: `makeInstance() -> ModelInstance`. -/
def ModelAsset.MakeInstance (a : ModelAsset) : Model :=
  { asset := a, instState := [] }

/-- Modelled from the spec: `instance.getDrawClipRadius() -> scalar`. -/
def Model.GetDrawClipRadius (m : Model) : Scalar := m.asset.drawClipRadius

/-- Modelled from the spec: `instance.createCollisionMesh() -> CollisionMesh`, the
mesh derived from the instance's collision data. -/
def Model.CreateCollisionMesh (m : Model) : CollMesh :=
  { aabbRadius := m.asset.aabbRadius, geomTree := m.asset.geomTree }

/-- Modelled from the spec: the Collision Proxy (`Geom` is not in the source),
"constructed from a geometry tree; supports moveTo(orientation, position),
enable()/disable(), setUserData(entity)".  `id` is the identity of the object. -/
structure Geom where
  id : Nat
  geomTree : Nat
  userData : Option Nat
  orient : matrix3x3d
  position : vector3d
  active : Bool
deriving DecidableEq, Repr

/-- Modelled from the spec: `new Geom(tree)`; a newly constructed proxy is enabled
and carries no back-reference yet. -/
def Geom.create (id tree : Nat) : Geom :=
  { id := id, geomTree := tree, userData := none,
    orient := matrix3x3d.identity, position := vector3d.zero, active := true }

/-- Modelled from the spec: `Geom::SetUserData`. -/
def Geom.SetUserData (g : Geom) (d : Nat) : Geom := { g with userData := some d }

/-- Modelled from the spec: `Geom::MoveTo`. -/
def Geom.MoveTo (g : Geom) (m : matrix3x3d) (p : vector3d) : Geom :=
  { g with orient := m, position := p }

/-- Modelled from the spec: `Geom::Enable`. -/
def Geom.Enable (g : Geom) : Geom := { g with active := true }

/-- Modelled from the spec: `Geom::Disable`. -/
def Geom.Disable (g : Geom) : Geom := { g with active := false }

/-- Modelled from the spec: the Frame (`Frame` is not in the source), which "holds
two disjoint registries of Collision Proxies", one per partition.  A registry is
the list of the pointers registered, one entry per registration. -/
structure Frame where
  geoms : List GeomPtr
  staticGeoms : List GeomPtr
deriving DecidableEq, Repr

/-- Modelled from the spec: `addGeom(proxy)`, one more registration in the dynamic
partition ("not independently idempotent"). -/
def Frame.AddGeom (fr : Frame) (g : GeomPtr) : Frame :=
  { fr with geoms := fr.geoms ++ [g] }

/-- Modelled from the spec: `removeGeom(proxy)`, the matching removal of one
registration from the dynamic partition. -/
def Frame.RemoveGeom (fr : Frame) (g : GeomPtr) : Frame :=
  { fr with geoms := fr.geoms.erase g }

/-- Modelled from the spec: `addStaticGeom(proxy)`, one more registration in the
static partition. -/
def Frame.AddStaticGeom (fr : Frame) (g : GeomPtr) : Frame :=
  { fr with staticGeoms := fr.staticGeoms ++ [g] }

/-- Modelled from the spec: `removeStaticGeom(proxy)`, the matching removal of one
registration from the static partition. -/
def Frame.RemoveStaticGeom (fr : Frame) (g : GeomPtr) : Frame :=
  { fr with staticGeoms := fr.staticGeoms.erase g }

/-- The registry of the partition selected by `isStatic`. -/
def Frame.partition (fr : Frame) (isStatic : Bool) : List GeomPtr :=
  if isStatic then fr.staticGeoms else fr.geoms

/-- Modelled from the spec: the base spatial entity (`Body` is not in the source):
pose, radii and the non-owning reference to the current frame. -/
structure Body where
  m_frame : Option FrameId
  m_position : vector3d
  m_orient : matrix3x3d
  m_physRadius : Scalar
  m_clipRadius : Scalar
deriving DecidableEq, Repr

/-- Modelled from the spec: the constructor `Body()`; a new entity is attached to no
frame. -/
def Body.create : Body :=
  { m_frame := none, m_position := vector3d.zero, m_orient := matrix3x3d.identity,
    m_physRadius := Scalar.zero, m_clipRadius := Scalar.zero }

/-- Modelled from the spec: `Body::SetFrame`, which is not in the source; updates the
reference to the current frame. -/
@[simp] def Body.SetFrame (b : Body) (f : Option FrameId) : Body := { b with m_frame := f }

/-- Modelled from the spec: `Body::SetPosition`, which is not in the source; stores
the position given. -/
@[simp] def Body.SetPosition (b : Body) (p : vector3d) : Body := { b with m_position := p }

/-- Modelled from the spec: `Body::SetOrient`, which is not in the source; stores the
orientation given. -/
@[simp] def Body.SetOrient (b : Body) (m : matrix3x3d) : Body := { b with m_orient := m }

/-- Modelled from the spec: `Body::SetPhysRadius`, which is not in the source. -/
@[simp] def Body.SetPhysRadius (b : Body) (r : Scalar) : Body := { b with m_physRadius := r }

/-- Modelled from the spec: `Body::SetClipRadius`, which is not in the source. -/
@[simp] def Body.SetClipRadius (b : Body) (r : Scalar) : Body := { b with m_clipRadius := r }

/-! ## The entity -/

/-- The class `ModelBody`: the fields set by its constructor, on top of `Body`.
`self` is the address of the object (`this`). -/
structure ModelBody extends Body where
  self : Nat
  m_isStatic : Bool
  m_colliding : Bool
  m_geom : Option Geom
  m_model : Option Model
  m_modelName : String
  m_collMesh : Option CollMesh
deriving DecidableEq, Repr

/-- The pointer value of `m_geom`. -/
def ModelBody.geomPtr (b : ModelBody) : GeomPtr := b.m_geom.map Geom.id

/-- The constructor `ModelBody::ModelBody()`. -/
def ModelBody.create (self : Nat) : ModelBody :=
  { Body.create with
    self := self, m_isStatic := false, m_colliding := true,
    m_geom := none, m_model := none, m_modelName := "", m_collMesh := none }

/-- An effect of the entity on the world around it: a call on a frame, or the
construction or destruction of an object it owns. -/
inductive Event where
  | AddGeom (f : FrameId) (g : GeomPtr)
  | RemoveGeom (f : FrameId) (g : GeomPtr)
  | AddStaticGeom (f : FrameId) (g : GeomPtr)
  | RemoveStaticGeom (f : FrameId) (g : GeomPtr)
  | NewGeom (id : Nat)
  | DeleteGeom (id : Nat)
  | NewModel (m : Model)
  | DeleteModel (m : Model)
deriving DecidableEq, Repr

/-- What stops an operation. -/
inductive Fault where
  | nullFrame
  | nullModel
  | modelNotFound
  | badStream
deriving DecidableEq, Repr

/-- The collaborators the entity is given: the model lookup and the persistence of
the base entity and of the model instance, none of which is in the source. -/
structure Collab where
  FindModel : String → Option ModelAsset
  bodySave : Body → Stream
  bodyLoad : Body → Stream → Option (Body × Stream)
  modelSave : Model → Stream
  modelLoad : Model → Stream → Option (Model × Stream)

/-- The entity within its world: the frames with their registries, the identity the
next constructed proxy gets, and the effects issued so far, oldest first. -/
structure State where
  mb : ModelBody
  frames : FrameId → Frame
  nextGeom : Nat
  trace : List Event

/-- Apply a frame operation to frame `f` and record the call. -/
def State.onFrame (s : State) (f : FrameId) (op : Frame → Frame) (ev : Event) : State :=
  { s with frames := fun k => if k = f then op (s.frames k) else s.frames k,
           trace := s.trace ++ [ev] }

/-- The call `f->AddGeom(g)`. -/
def State.AddGeom (s : State) (f : FrameId) (g : GeomPtr) : State :=
  s.onFrame f (fun fr => fr.AddGeom g) (Event.AddGeom f g)

/-- The call `f->RemoveGeom(g)`. -/
def State.RemoveGeom (s : State) (f : FrameId) (g : GeomPtr) : State :=
  s.onFrame f (fun fr => fr.RemoveGeom g) (Event.RemoveGeom f g)

/-- The call `f->AddStaticGeom(g)`. -/
def State.AddStaticGeom (s : State) (f : FrameId) (g : GeomPtr) : State :=
  s.onFrame f (fun fr => fr.AddStaticGeom g) (Event.AddStaticGeom f g)

/-- The call `f->RemoveStaticGeom(g)`. -/
def State.RemoveStaticGeom (s : State) (f : FrameId) (g : GeomPtr) : State :=
  s.onFrame f (fun fr => fr.RemoveStaticGeom g) (Event.RemoveStaticGeom f g)

/-- Record an effect that is not a frame call. -/
def State.record (s : State) (ev : Event) : State :=
  { s with trace := s.trace ++ [ev] }

/-- A newly constructed entity in a world with the given frames. -/
def State.create (self : Nat) (frames : FrameId → Frame) (nextGeom : Nat) : State :=
  { mb := ModelBody.create self, frames := frames, nextGeom := nextGeom, trace := [] }

/-- The frame with nothing registered. -/
def Frame.empty : Frame := { geoms := [], staticGeoms := [] }

namespace ModelBody

/-- The method `ModelBody::SetFrame`. -/
def SetFrame (f : Option FrameId) (s : State) : State :=
  if f = s.mb.m_frame then s
  else
    let s1 : State :=
      match s.mb.m_frame with
      | some cur =>
        if s.mb.m_isStatic then s.RemoveStaticGeom cur s.mb.geomPtr
        else s.RemoveGeom cur s.mb.geomPtr
      | none => s
    let s2 : State := { s1 with mb := { s1.mb with toBody := s1.mb.toBody.SetFrame f } }
    match f with
    | some nf =>
      if s2.mb.m_isStatic then s2.AddStaticGeom nf s2.mb.geomPtr
      else s2.AddGeom nf s2.mb.geomPtr
    | none => s2

/-- The method `ModelBody::SetStatic`.  `GetFrame()` is dereferenced without a
check, so a null frame is a fault. -/
def SetStatic (isStatic : Bool) (s : State) : Except Fault State :=
  if isStatic = s.mb.m_isStatic then .ok s
  else
    let s1 : State := { s with mb := { s.mb with m_isStatic := isStatic } }
    match s1.mb.m_geom with
    | none => .ok s1
    | some g =>
      if s1.mb.m_isStatic then
        match s1.mb.m_frame with
        | none => .error Fault.nullFrame
        | some f => .ok ((s1.RemoveGeom f (some g.id)).AddStaticGeom f (some g.id))
      else
        match s1.mb.m_frame with
        | none => .error Fault.nullFrame
        | some f => .ok ((s1.RemoveStaticGeom f (some g.id)).AddGeom f (some g.id))

/-- The method `ModelBody::SetColliding`. -/
def SetColliding (colliding : Bool) (s : State) : State :=
  let s1 : State := { s with mb := { s.mb with m_colliding := colliding } }
  match s1.mb.m_geom with
  | none => s1
  | some g =>
    if colliding then { s1 with mb := { s1.mb with m_geom := some g.Enable } }
    else { s1 with mb := { s1.mb with m_geom := some g.Disable } }

/-- The method `ModelBody::RebuildCollisionMesh`.  The removal of the old proxy
dereferences `GetFrame()` without a check, and `m_model` is dereferenced without a
check. -/
def RebuildCollisionMesh (s : State) : Except Fault State :=
  let removed : Except Fault State :=
    match s.mb.m_geom with
    | some g =>
      match s.mb.m_frame with
      | none => .error Fault.nullFrame
      | some f =>
        let s1 : State :=
          if s.mb.m_isStatic then s.RemoveStaticGeom f (some g.id)
          else s.RemoveGeom f (some g.id)
        .ok (s1.record (Event.DeleteGeom g.id))
    | none => .ok s
  match removed with
  | .error e => .error e
  | .ok s1 =>
    match s1.mb.m_model with
    | none => .error Fault.nullModel
    | some m =>
      let mesh := m.CreateCollisionMesh
      let s1a : State := { s1 with mb := { s1.mb with m_collMesh := some mesh } }
      let s2 : State :=
        { s1a with mb := { s1a.mb with toBody := s1a.mb.toBody.SetPhysRadius mesh.aabbRadius } }
      let g0 := Geom.create s2.nextGeom mesh.geomTree
      let s3 : State :=
        { (s2.record (Event.NewGeom g0.id)) with nextGeom := s2.nextGeom + 1 }
      let g1 := g0.SetUserData s3.mb.self
      let g2 := g1.MoveTo s3.mb.m_orient s3.mb.m_position
      let s4 : State := { s3 with mb := { s3.mb with m_geom := some g2 } }
      match s4.mb.m_frame with
      | some f =>
        if s4.mb.m_isStatic then .ok (s4.AddStaticGeom f (some g2.id))
        else .ok (s4.AddGeom f (some g2.id))
      | none => .ok s4

/-- The method `ModelBody::SetModel`.  A model name the lookup does not resolve is
fatal. -/
def SetModel (c : Collab) (modelName : String) (s : State) : Except Fault State :=
  let s1 : State :=
    match s.mb.m_model with
    | some old => { (s.record (Event.DeleteModel old)) with mb := { s.mb with m_model := none } }
    | none => s
  let s2 : State := { s1 with mb := { s1.mb with m_modelName := modelName } }
  match c.FindModel s2.mb.m_modelName with
  | none => .error Fault.modelNotFound
  | some a =>
    let m := a.MakeInstance
    let s3 : State := { (s2.record (Event.NewModel m)) with mb := { s2.mb with m_model := some m } }
    let s4 : State :=
      { s3 with mb := { s3.mb with toBody := s3.mb.toBody.SetClipRadius m.GetDrawClipRadius } }
    RebuildCollisionMesh s4

/-- The method `ModelBody::SetPosition`. -/
def SetPosition (p : vector3d) (s : State) : State :=
  let s1 : State := { s with mb := { s.mb with toBody := s.mb.toBody.SetPosition p } }
  match s1.mb.m_geom with
  | none => s1
  | some g =>
    let m2 := s1.mb.m_orient
    let s2 : State := { s1 with mb := { s1.mb with m_geom := some (g.MoveTo m2 p) } }
    if s2.mb.m_isStatic then SetFrame s2.mb.m_frame s2 else s2

/-- The method `ModelBody::SetOrient`. -/
def SetOrient (m : matrix3x3d) (s : State) : State :=
  let s1 : State := { s with mb := { s.mb with toBody := s.mb.toBody.SetOrient m } }
  match s1.mb.m_geom with
  | none => s1
  | some g =>
    { s1 with mb := { s1.mb with m_geom := some (g.MoveTo m s1.mb.m_position) } }

/-- The method `ModelBody::Save`: what it appends to the writer. -/
def Save (c : Collab) (s : State) (wr : Stream) : Except Fault Stream :=
  let wr1 := wr ++ c.bodySave s.mb.toBody
  let wr2 := wr1 ++ [Tok.Bool s.mb.m_isStatic]
  let wr3 := wr2 ++ [Tok.Bool s.mb.m_colliding]
  let wr4 := wr3 ++ [Tok.String s.mb.m_modelName]
  match s.mb.m_model with
  | none => .error Fault.nullModel
  | some m => .ok (wr4 ++ c.modelSave m)

/-- The method `ModelBody::Load`: the entity afterwards and what is left of the
reader. -/
def Load (c : Collab) (rd : Stream) (s : State) : Except Fault (State × Stream) :=
  match c.bodyLoad s.mb.toBody rd with
  | none => .error Fault.badStream
  | some (b, rd1) =>
    let s1 : State := { s with mb := { s.mb with toBody := b } }
    match Reader.Bool rd1 with
    | none => .error Fault.badStream
    | some (isStatic, rd2) =>
      let s2 : State := { s1 with mb := { s1.mb with m_isStatic := isStatic } }
      match Reader.Bool rd2 with
      | none => .error Fault.badStream
      | some (colliding, rd3) =>
        let s3 : State := { s2 with mb := { s2.mb with m_colliding := colliding } }
        match Reader.String rd3 with
        | none => .error Fault.badStream
        | some (name, rd4) =>
          match SetModel c name s3 with
          | .error e => .error e
          | .ok s4 =>
            match s4.mb.m_model with
            | none => .error Fault.nullModel
            | some m =>
              match c.modelLoad m rd4 with
              | none => .error Fault.badStream
              | some (m1, rd5) =>
                .ok ({ s4 with mb := { s4.mb with m_model := some m1 } }, rd5)

end ModelBody

/-! ## Destruction and rendering -/

/-- A single-precision value, identified by its IEEE-754 bit pattern. -/
structure Single where
  bits : Nat
deriving DecidableEq, Repr

/-- The float `1.0f`. -/
def Single.one : Single := ⟨0x3F800000⟩

/-- The machine arithmetic the renderer bridge uses, taken as given: addition and
multiplication of doubles, and the narrowing of a double to a float. -/
structure Arith where
  add : Scalar → Scalar → Scalar
  mul : Scalar → Scalar → Scalar
  narrow : Scalar → Single

/-- Modelled from the spec: the type `matrix4x4d` (`matrix4x4.h` is not in the
source), sixteen doubles in column-major order: cell `4 * c + r` is row `r` of column
`c`, and cells 12, 13, 14 are the translation. -/
structure matrix4x4d where
  cell : Fin 16 → Scalar

/-- Modelled from the spec: the type `matrix4x4f`, sixteen floats in the same
order. -/
structure matrix4x4f where
  cell : Fin 16 → Single

/-- The cell of index `k`, for `k` below 16. -/
def matrix4x4d.cellAt (m : matrix4x4d) (k : Nat) : Scalar := m.cell (Fin.ofNat k)

/-- Modelled from the spec: the conversion of a `matrix3x3d` to a `matrix4x4d`, "a
3x3 matrix widened to 4x4 with last row and column 0,0,0,1". -/
def matrix4x4d.ofMatrix3x3 (m : matrix3x3d) : matrix4x4d :=
  ⟨fun i =>
    match i.val with
    | 0 => m.c0.x | 1 => m.c0.y | 2 => m.c0.z
    | 4 => m.c1.x | 5 => m.c1.y | 6 => m.c1.z
    | 8 => m.c2.x | 9 => m.c2.y | 10 => m.c2.z
    | 15 => Scalar.one
    | _ => Scalar.zero⟩

/-- Modelled from the spec: `matrix4x4d::SetTranslate`, which stores the vector in
the translation cells 12, 13, 14. -/
def matrix4x4d.SetTranslate (m : matrix4x4d) (v : vector3d) : matrix4x4d :=
  ⟨fun i =>
    if i.val = 12 then v.x else if i.val = 13 then v.y else if i.val = 14 then v.z
    else m.cell i⟩

/-- Modelled from the spec: the product `a * b` of two `matrix4x4d`, "standard
column-major 4x4 multiplication": row `r` of `a` with column `c` of `b`, summed left
to right. -/
def matrix4x4d.mul (ar : Arith) (a b : matrix4x4d) : matrix4x4d :=
  ⟨fun i =>
    ar.add
      (ar.add
        (ar.add (ar.mul (a.cellAt (i.val % 4)) (b.cellAt (4 * (i.val / 4))))
                (ar.mul (a.cellAt (4 + i.val % 4)) (b.cellAt (4 * (i.val / 4) + 1))))
        (ar.mul (a.cellAt (8 + i.val % 4)) (b.cellAt (4 * (i.val / 4) + 2))))
      (ar.mul (a.cellAt (12 + i.val % 4)) (b.cellAt (4 * (i.val / 4) + 3)))⟩

/-- The assignment `trans[i] = v`. -/
def matrix4x4f.set (m : matrix4x4f) (i : Nat) (v : Single) : matrix4x4f :=
  ⟨fun j => if j.val = i then v else m.cell j⟩

namespace ModelBody

/-- The destructor `ModelBody::~ModelBody`: detach, release the proxy, release the
model instance. -/
def Destructor (s : State) : State :=
  let s1 : State := SetFrame none s
  let s2 : State :=
    match s1.mb.m_geom with
    | some g => s1.record (Event.DeleteGeom g.id)
    | none => s1
  match s2.mb.m_model with
  | some m => s2.record (Event.DeleteModel m)
  | none => s2

/-- The method `ModelBody::RenderModel`: the transform it hands to the model
instance's `Render`.  `interpOrient` and `interpPosition` are what `GetInterpOrient()`
and `GetInterpPosition()` return, `trans0` is the content of the uninitialised local
`trans`; `m_model` is dereferenced without a check.  The `glPushMatrix` and
`glPopMatrix` around the call save and restore the ambient matrix and have no part in
the transform. -/
def RenderModel (ar : Arith) (interpOrient : matrix3x3d) (interpPosition : vector3d)
    (trans0 : matrix4x4f) (viewCoords : vector3d) (viewTransform : matrix4x4d)
    (s : State) : Except Fault matrix4x4f :=
  let m2 : matrix4x4d :=
    (matrix4x4d.ofMatrix3x3 interpOrient).SetTranslate interpPosition
  let t : matrix4x4d := matrix4x4d.mul ar viewTransform m2
  let trans1 : matrix4x4f :=
    (List.range 12).foldl (fun tr i => tr.set i (ar.narrow (t.cellAt i))) trans0
  let trans2 := trans1.set 12 (ar.narrow viewCoords.x)
  let trans3 := trans2.set 13 (ar.narrow viewCoords.y)
  let trans4 := trans3.set 14 (ar.narrow viewCoords.z)
  let trans5 := trans4.set 15 Single.one
  match s.mb.m_model with
  | none => .error Fault.nullModel
  | some _ => .ok trans5

end ModelBody

/-! ## Call sequences -/

/-- One call on the entity. -/
inductive Op where
  | SetModel (modelName : String)
  | SetFrame (f : Option FrameId)
  | SetStatic (isStatic : Bool)
  | SetColliding (colliding : Bool)
  | SetPosition (p : vector3d)
  | SetOrient (m : matrix3x3d)
  | Load (rd : Stream)
deriving DecidableEq, Repr

/-- Perform one call. -/
def Op.step (c : Collab) (o : Op) (s : State) : Except Fault State :=
  match o with
  | Op.SetModel n => ModelBody.SetModel c n s
  | Op.SetFrame f => .ok (ModelBody.SetFrame f s)
  | Op.SetStatic b => ModelBody.SetStatic b s
  | Op.SetColliding b => .ok (ModelBody.SetColliding b s)
  | Op.SetPosition p => .ok (ModelBody.SetPosition p s)
  | Op.SetOrient m => .ok (ModelBody.SetOrient m s)
  | Op.Load rd =>
    match ModelBody.Load c rd s with
    | .ok (s1, _) => .ok s1
    | .error e => .error e

/-- Perform a sequence of calls, first to last; a fault ends the run. -/
def run (c : Collab) : List Op → State → Except Fault State
  | [], s => .ok s
  | o :: rest, s =>
    match o.step c s with
    | .ok s1 => run c rest s1
    | .error e => .error e

/-- The state an operation ended in, or `d` if it faulted. -/
def okOr (d : State) : Except Fault State → State
  | .ok s => s
  | .error _ => d

/-- The fault an operation ended in, if it did. -/
def faultOf {α : Type} : Except Fault α → Option Fault
  | .ok _ => none
  | .error e => some e

/-! ## Registration -/

/-- How many times `p` is registered in the partition `isStatic` of frame `f`. -/
def State.regCount (s : State) (f : FrameId) (isStatic : Bool) (p : GeomPtr) : Nat :=
  ((s.frames f).partition isStatic).count p

/-- The pointer `p` is registered exactly once, in the partition `isStatic` of frame
`F`, and in no other partition of any frame. -/
def State.RegisteredOnlyAt (s : State) (p : GeomPtr) (F : FrameId) (isStatic : Bool) : Prop :=
  ∀ f b, s.regCount f b p = if f = F ∧ b = isStatic then 1 else 0

/-- The pointer `p` is registered in no partition of any frame. -/
def State.Unregistered (s : State) (p : GeomPtr) : Prop :=
  ∀ f b, s.regCount f b p = 0

/-- Invariant I1: an existing proxy is registered exactly once, in the partition of
the current frame that matches `m_isStatic`; with no current frame it is registered
nowhere. -/
def State.I1 (s : State) : Prop :=
  ∀ g, s.mb.m_geom = some g →
    match s.mb.m_frame with
    | some F => s.RegisteredOnlyAt (some g.id) F s.mb.m_isStatic
    | none => s.Unregistered (some g.id)

/-- The proxy's pose is the entity's authoritative pose. -/
def State.PoseSynced (s : State) : Prop :=
  ∀ g, s.mb.m_geom = some g → g.orient = s.mb.m_orient ∧ g.position = s.mb.m_position

/-- The radii are those derived from the model named by `m_modelName`, and a model
instance exists. -/
def State.ModelDerived (c : Collab) (s : State) : Prop :=
  s.mb.m_model ≠ none ∧
  ∃ a, c.FindModel s.mb.m_modelName = some a ∧
    s.mb.m_clipRadius = a.MakeInstance.GetDrawClipRadius ∧
    s.mb.m_physRadius = a.MakeInstance.CreateCollisionMesh.aabbRadius

/-- The entity holds no model yet, or its radii are those derived from the model it
is named after. -/
def State.I2 (c : Collab) (s : State) : Prop :=
  s.mb.m_model = none ∨ s.ModelDerived c

/-- What `SetModel(id)` leaves behind, for the asset `a` found for `id` and the
entity at address `self`. -/
def SetModelPost (id : String) (a : ModelAsset) (self : Nat) (s1 : State) : Prop :=
  s1.mb.m_modelName = id ∧
  s1.mb.m_model = some a.MakeInstance ∧
  s1.mb.m_clipRadius = a.MakeInstance.GetDrawClipRadius ∧
  s1.mb.m_collMesh = some a.MakeInstance.CreateCollisionMesh ∧
  s1.mb.m_physRadius = a.MakeInstance.CreateCollisionMesh.aabbRadius ∧
  ∃ g, s1.mb.m_geom = some g ∧
    g.geomTree = a.MakeInstance.CreateCollisionMesh.geomTree ∧
    g.userData = some self

/-- Where `SetStatic(isStatic)` takes an attached entity with a proxy `p`: the flag
is set, and `p` leaves one partition of frame `F` for the other. -/
def migrated (s : State) (F : FrameId) (p : GeomPtr) (isStatic : Bool) : State :=
  let s1 : State := { s with mb := { s.mb with m_isStatic := isStatic } }
  if isStatic then (s1.RemoveGeom F p).AddStaticGeom F p
  else (s1.RemoveStaticGeom F p).AddGeom F p

/-- The proxy `RebuildCollisionMesh` constructs from the mesh of model `m`. -/
def rebuiltGeom (s : State) (m : Model) : Geom :=
  { id := s.nextGeom, geomTree := m.CreateCollisionMesh.geomTree,
    userData := some s.mb.self, orient := s.mb.m_orient, position := s.mb.m_position,
    active := true }

/-- The entity as `RebuildCollisionMesh` leaves it. -/
def rebuiltBody (s : State) (m : Model) : ModelBody :=
  { s.mb with
    m_collMesh := some m.CreateCollisionMesh,
    m_physRadius := m.CreateCollisionMesh.aabbRadius,
    m_geom := some (rebuiltGeom s m) }

/-- The state `SetModel` hands to `RebuildCollisionMesh` when the lookup finds asset
`a`: the old instance destroyed, the name recorded, the new instance made and the
clip radius taken from it. -/
def withNewModel (s : State) (modelName : String) (a : ModelAsset) : State :=
  let s1 : State :=
    match s.mb.m_model with
    | some old => { (s.record (Event.DeleteModel old)) with mb := { s.mb with m_model := none } }
    | none => s
  let s2 : State := { s1 with mb := { s1.mb with m_modelName := modelName } }
  let s3 : State :=
    { (s2.record (Event.NewModel a.MakeInstance)) with
      mb := { s2.mb with m_model := some a.MakeInstance } }
  { s3 with
    mb := { s3.mb with toBody := s3.mb.toBody.SetClipRadius a.MakeInstance.GetDrawClipRadius } }

/-- What a rebuild leaves behind for an entity attached to frame `F`: frame and
static flag as before, the new proxy, whose identity is the one `s` had next,
registered exactly once, in the partition of `F` that matches the flag, and the old
proxy of `s`, if any, registered nowhere. -/
def Reattached (s : State) (F : FrameId) (s1 : State) : Prop :=
  s1.mb.m_frame = some F ∧ s1.mb.m_isStatic = s.mb.m_isStatic ∧
  (∃ g1, s1.mb.m_geom = some g1 ∧ g1.id = s.nextGeom ∧
    s1.RegisteredOnlyAt (some g1.id) F s1.mb.m_isStatic) ∧
  (∀ g, s.mb.m_geom = some g → s1.Unregistered (some g.id))

/-- The entity `Load` hands to `SetModel`: base state and both flags read. -/
def loadedFlags (s : State) (b : Body) (isStatic colliding : Bool) : State :=
  let s1 : State := { s with mb := { s.mb with toBody := b } }
  let s2 : State := { s1 with mb := { s1.mb with m_isStatic := isStatic } }
  { s2 with mb := { s2.mb with m_colliding := colliding } }

/-- Replay of the frame calls in a record of effects against the registrations the
entity holds (`live`): every removal must target a pointer the entity has added to
that partition of that frame and not removed since, and no pointer may be added
where the entity still holds it. -/
def matchedFrom (live : List (FrameId × Bool × GeomPtr)) : List Event → Bool
  | [] => true
  | Event.AddGeom f p :: rest =>
    !(live.contains (f, false, p)) && matchedFrom ((f, false, p) :: live) rest
  | Event.AddStaticGeom f p :: rest =>
    !(live.contains (f, true, p)) && matchedFrom ((f, true, p) :: live) rest
  | Event.RemoveGeom f p :: rest =>
    live.contains (f, false, p) && matchedFrom (live.erase (f, false, p)) rest
  | Event.RemoveStaticGeom f p :: rest =>
    live.contains (f, true, p) && matchedFrom (live.erase (f, true, p)) rest
  | Event.NewGeom _ :: rest => matchedFrom live rest
  | Event.DeleteGeom _ :: rest => matchedFrom live rest
  | Event.NewModel _ :: rest => matchedFrom live rest
  | Event.DeleteModel _ :: rest => matchedFrom live rest

/-- Effect `a` occurs in `es`, and before any occurrence of effect `b`. -/
def occursBefore (a b : Event) (es : List Event) : Bool :=
  decide (es.indexOf a < es.indexOf b)

/-- The proxy's enabled flag equals `m_colliding`. -/
def State.EnabledMirrors (s : State) : Prop :=
  ∀ g, s.mb.m_geom = some g → g.active = s.mb.m_colliding

/-- The transform `RenderModel` builds. -/
def renderTrans (ar : Arith) (interpOrient : matrix3x3d) (interpPosition : vector3d)
    (trans0 : matrix4x4f) (viewCoords : vector3d) (viewTransform : matrix4x4d) : matrix4x4f :=
  let t : matrix4x4d :=
    matrix4x4d.mul ar viewTransform
      ((matrix4x4d.ofMatrix3x3 interpOrient).SetTranslate interpPosition)
  (((((List.range 12).foldl (fun tr i => tr.set i (ar.narrow (t.cellAt i))) trans0).set 12
    (ar.narrow viewCoords.x)).set 13 (ar.narrow viewCoords.y)).set 14
    (ar.narrow viewCoords.z)).set 15 Single.one

/-! ## A small world to run the scenarios in -/

namespace Demo

/-- The asset of the model "probe". -/
def probe : ModelAsset := { drawClipRadius := ⟨5⟩, aabbRadius := ⟨7⟩, geomTree := 11 }

/-- The asset of the model "ship.craft". -/
def shipCraft : ModelAsset := { drawClipRadius := ⟨6⟩, aabbRadius := ⟨8⟩, geomTree := 12 }

/-- A lookup that knows "probe" and "ship.craft", with a base record of the two
radii and a length-prefixed model record. -/
def collab : Collab :=
  { FindModel := fun n =>
      if n = "probe" then some probe else if n = "ship.craft" then some shipCraft else none,
    bodySave := fun b => [Tok.Int b.m_physRadius.bits, Tok.Int b.m_clipRadius.bits],
    bodyLoad := fun b rd =>
      match rd with
      | Tok.Int p :: Tok.Int q :: rest =>
        some ({ b with m_physRadius := ⟨p⟩, m_clipRadius := ⟨q⟩ }, rest)
      | _ => none,
    modelSave := fun m => Tok.Int m.instState.length :: m.instState,
    modelLoad := fun m rd =>
      match rd with
      | Tok.Int n :: rest => some ({ m with instState := rest.take n }, rest.drop n)
      | _ => none }

/-- A new entity at address 7, in a world of empty frames. -/
def fresh : State := State.create 7 (fun _ => Frame.empty) 0

/-- After `SetModel("probe")`. -/
def withModel : State := okOr fresh (ModelBody.SetModel collab "probe" fresh)

/-- Then `SetFrame(F1)`. -/
def inF1 : State := ModelBody.SetFrame (some 1) withModel

/-- Then `SetStatic(true)`. -/
def staticInF1 : State := okOr inF1 (ModelBody.SetStatic true inF1)

/-- Then `SetFrame(F2)`. -/
def staticInF2 : State := ModelBody.SetFrame (some 2) staticInF1

/-- A position to move to. -/
def somewhere : vector3d := ⟨⟨1⟩, ⟨2⟩, ⟨3⟩⟩

/-- An orientation to turn to. -/
def someway : matrix3x3d := ⟨⟨⟨4⟩, ⟨5⟩, ⟨6⟩⟩, ⟨⟨7⟩, ⟨8⟩, ⟨9⟩⟩, ⟨⟨10⟩, ⟨11⟩, ⟨12⟩⟩⟩

/-- The entity of property P4: static, not colliding, model "ship.craft", in F1. -/
def shipEntity : State :=
  ModelBody.SetColliding false
    (okOr fresh (ModelBody.SetStatic true
      (ModelBody.SetFrame (some 1) (okOr fresh (ModelBody.SetModel collab "ship.craft" fresh)))))

/-- A new entity made static and attached to F1 before any model is set. -/
def attachedNoModel : State :=
  ModelBody.SetFrame (some 1) (okOr fresh (ModelBody.SetStatic true fresh))

/-- The calls of the scenario, with a move and a turn among them. -/
def tour : List Op :=
  [Op.SetModel "probe", Op.SetFrame (some 1), Op.SetStatic true, Op.SetPosition somewhere,
   Op.SetFrame (some 2), Op.SetOrient someway, Op.SetColliding false]

/-- The entity after the tour. -/
def toured : State := okOr fresh (run collab tour fresh)

/-- The static entity with its proxy, detached again from F1. -/
def staticDetached : State := ModelBody.SetFrame none staticInF1

/-- A record as `Save` writes it for an entity with `isStatic = true`,
`isColliding = false` and model "ship.craft". -/
def shipRecord : Stream :=
  [Tok.Int 8, Tok.Int 6, Tok.Bool true, Tok.Bool false, Tok.String "ship.craft", Tok.Int 0]

/-- Frame calls before any model: attach to F1, turn static, detach. -/
def earlyCalls : List Op := [Op.SetFrame (some 1), Op.SetStatic true, Op.SetFrame none]

/-- A second entity, at address 9, in a world of empty frames. -/
def fresh9 : State := State.create 9 (fun _ => Frame.empty) 0

/-- The effects of `SetModel("ship.craft")` on the entity that holds "probe" with its
proxy registered in F1, in the order they happen. -/
def swapEffects : List Event :=
  [Event.DeleteModel probe.MakeInstance, Event.NewModel shipCraft.MakeInstance,
   Event.RemoveGeom 1 (some 0), Event.DeleteGeom 0, Event.NewGeom 1, Event.AddGeom 1 (some 1)]

end Demo

/-! ## Registration counts under the frame calls -/

open ModelBody

@[simp] theorem regCount_AddGeom (s : State) (f : FrameId) (g : GeomPtr) (k : FrameId) (b : Bool)
    (p : GeomPtr) :
    (s.AddGeom f g).regCount k b p
      = s.regCount k b p + (if k = f ∧ b = false ∧ g = p then 1 else 0) := by
  by_cases hk : k = f <;> cases b <;> by_cases hp : g = p <;>
    simp [State.AddGeom, State.onFrame, State.regCount, Frame.partition, Frame.AddGeom, hk, hp,
      List.count_singleton]

@[simp] theorem regCount_AddStaticGeom (s : State) (f : FrameId) (g : GeomPtr) (k : FrameId)
    (b : Bool) (p : GeomPtr) :
    (s.AddStaticGeom f g).regCount k b p
      = s.regCount k b p + (if k = f ∧ b = true ∧ g = p then 1 else 0) := by
  by_cases hk : k = f <;> cases b <;> by_cases hp : g = p <;>
    simp [State.AddStaticGeom, State.onFrame, State.regCount, Frame.partition,
      Frame.AddStaticGeom, hk, hp, List.count_singleton]

@[simp] theorem regCount_RemoveGeom (s : State) (f : FrameId) (g : GeomPtr) (k : FrameId)
    (b : Bool) (p : GeomPtr) :
    (s.RemoveGeom f g).regCount k b p
      = s.regCount k b p - (if k = f ∧ b = false ∧ g = p then 1 else 0) := by
  by_cases hk : k = f <;> cases b <;> by_cases hp : g = p <;>
    simp [State.RemoveGeom, State.onFrame, State.regCount, Frame.partition, Frame.RemoveGeom,
      hk, hp, List.count_erase, Ne.symm]

@[simp] theorem regCount_RemoveStaticGeom (s : State) (f : FrameId) (g : GeomPtr) (k : FrameId)
    (b : Bool) (p : GeomPtr) :
    (s.RemoveStaticGeom f g).regCount k b p
      = s.regCount k b p - (if k = f ∧ b = true ∧ g = p then 1 else 0) := by
  by_cases hk : k = f <;> cases b <;> by_cases hp : g = p <;>
    simp [State.RemoveStaticGeom, State.onFrame, State.regCount, Frame.partition,
      Frame.RemoveStaticGeom, hk, hp, List.count_erase, Ne.symm]

theorem SetStatic_attached (s : State) (g : Geom) (F : FrameId) (isStatic : Bool)
    (hg : s.mb.m_geom = some g) (hf : s.mb.m_frame = some F)
    (hne : isStatic ≠ s.mb.m_isStatic) :
    SetStatic isStatic s = .ok (migrated s F (some g.id) isStatic) := by
  cases isStatic <;> simp [SetStatic, migrated, hg, hf, hne]

@[simp] theorem regCount_mb (s : State) (mb : ModelBody) (k : FrameId) (b : Bool) (p : GeomPtr) :
    ({ s with mb := mb } : State).regCount k b p = s.regCount k b p := rfl

@[simp] theorem AddGeom_mb (s : State) (f : FrameId) (p : GeomPtr) :
    (s.AddGeom f p).mb = s.mb := rfl

@[simp] theorem AddStaticGeom_mb (s : State) (f : FrameId) (p : GeomPtr) :
    (s.AddStaticGeom f p).mb = s.mb := rfl

@[simp] theorem RemoveGeom_mb (s : State) (f : FrameId) (p : GeomPtr) :
    (s.RemoveGeom f p).mb = s.mb := rfl

@[simp] theorem RemoveStaticGeom_mb (s : State) (f : FrameId) (p : GeomPtr) :
    (s.RemoveStaticGeom f p).mb = s.mb := rfl

@[simp] theorem record_mb (s : State) (ev : Event) : (s.record ev).mb = s.mb := rfl

@[simp] theorem regCount_record (s : State) (ev : Event) (k : FrameId) (b : Bool) (p : GeomPtr) :
    (s.record ev).regCount k b p = s.regCount k b p := rfl

theorem SetFrame_mb (f : Option FrameId) (s : State) :
    (SetFrame f s).mb = { s.mb with m_frame := f } := by
  unfold SetFrame
  by_cases h : f = s.mb.m_frame
  · subst h; simp
  · cases hc : s.mb.m_frame <;> cases f <;> cases hs : s.mb.m_isStatic <;> simp_all

theorem SetFrame_same (s : State) : SetFrame s.mb.m_frame s = s := by
  simp [SetFrame]

theorem SetFrame_regCount (f : Option FrameId) (s : State) (hf : f ≠ s.mb.m_frame)
    (k : FrameId) (b : Bool) (p : GeomPtr) :
    (SetFrame f s).regCount k b p
      = s.regCount k b p
        - (if s.mb.m_frame = some k ∧ b = s.mb.m_isStatic ∧ s.mb.geomPtr = p then 1 else 0)
        + (if f = some k ∧ b = s.mb.m_isStatic ∧ s.mb.geomPtr = p then 1 else 0) := by
  cases hc : s.mb.m_frame with
  | none =>
    cases f with
    | none => exact absurd hc.symm hf
    | some nf =>
      cases hs : s.mb.m_isStatic <;> cases b <;>
        simp [SetFrame, hc, hs, eq_comm, ModelBody.geomPtr]
  | some cur =>
    have hf1 : ¬ f = some cur := by rw [← hc]; exact hf
    cases f with
    | none =>
      cases hs : s.mb.m_isStatic <;> cases b <;>
        simp [SetFrame, hc, hs, eq_comm, ModelBody.geomPtr]
    | some nf =>
      cases hs : s.mb.m_isStatic <;> cases b <;>
        simp [SetFrame, hc, hs, hf1, eq_comm, ModelBody.geomPtr]

theorem SetFrame_I1 (f : Option FrameId) (s : State) (h : s.I1) : (SetFrame f s).I1 := by
  intro g hg
  rw [SetFrame_mb] at hg
  have hg0 : s.mb.m_geom = some g := hg
  have h0 := h g hg0
  by_cases hf : f = s.mb.m_frame
  · subst hf; rw [SetFrame_same]; exact h0
  · rw [SetFrame_mb]
    have hp : s.mb.geomPtr = some g.id := by simp [ModelBody.geomPtr, hg0]
    cases hc : s.mb.m_frame with
    | none =>
      rw [hc] at h0 hf
      cases f with
      | none => exact absurd rfl hf
      | some nf =>
        intro k b
        rw [SetFrame_regCount _ _ (by rw [hc]; exact hf), h0 k b, hp, hc]
        simp [eq_comm]
    | some cur =>
      rw [hc] at h0 hf
      cases f with
      | none =>
        intro k b
        rw [SetFrame_regCount _ _ (by rw [hc]; exact hf), h0 k b, hp, hc]
        by_cases hk : k = cur <;> by_cases hb : b = s.mb.m_isStatic <;> simp [hk, hb, eq_comm]
      | some nf =>
        intro k b
        rw [SetFrame_regCount _ _ (by rw [hc]; exact hf), h0 k b, hp, hc]
        have hne : nf ≠ cur := fun e => hf (by rw [e])
        by_cases hk : k = cur <;> by_cases hb : b = s.mb.m_isStatic <;>
          by_cases hk2 : k = nf <;> simp_all [eq_comm]

theorem migrated_registered (s : State) (g : Geom) (F : FrameId) (isStatic : Bool)
    (hs : s.mb.m_isStatic = !isStatic)
    (hreg : s.RegisteredOnlyAt (some g.id) F s.mb.m_isStatic) :
    (migrated s F (some g.id) isStatic).RegisteredOnlyAt (some g.id) F isStatic := by
  have hreg1 : ∀ f b, s.regCount f b (some g.id)
      = if f = F ∧ b = s.mb.m_isStatic then 1 else 0 := hreg
  intro f b
  cases isStatic <;> cases b <;> by_cases hk : f = F <;> simp [migrated, hreg1, hs, hk]

theorem SetStatic_I1 (b : Bool) (s s1 : State) (h : s.I1) (hok : SetStatic b s = .ok s1) :
    s1.I1 := by
  by_cases hb : b = s.mb.m_isStatic
  · have : SetStatic b s = .ok s := by simp [SetStatic, hb]
    rw [this] at hok
    cases hok
    exact h
  · cases hg : s.mb.m_geom with
    | none =>
      have : SetStatic b s = .ok { s with mb := { s.mb with m_isStatic := b } } := by
        simp [SetStatic, hb, hg]
      rw [this] at hok
      cases hok
      intro g hg1
      have hg2 : s.mb.m_geom = some g := hg1
      rw [hg] at hg2
      cases hg2
    | some g =>
      cases hf : s.mb.m_frame with
      | none =>
        have : SetStatic b s = .error Fault.nullFrame := by
          cases b <;> simp [SetStatic, hb, hg, hf]
        rw [this] at hok
        cases hok
      | some F =>
        rw [SetStatic_attached s g F b hg hf hb] at hok
        cases hok
        have hs : s.mb.m_isStatic = !b := by
          cases h1 : s.mb.m_isStatic <;> cases b <;> simp_all
        have h0 := h g hg
        rw [hf] at h0
        have hm := migrated_registered s g F b hs h0
        intro g1 hg1
        have hmb : (migrated s F (some g.id) b).mb = { s.mb with m_isStatic := b } := by
          cases b <;> simp [migrated]
        rw [hmb] at hg1 ⊢
        have hg2 : s.mb.m_geom = some g1 := hg1
        rw [hg] at hg2
        cases hg2
        simpa [hf] using hm

/-- Invariant I1 is kept by every sequence of `SetFrame` and `SetStatic` calls that
runs to its end. -/
theorem run_I1 (c : Collab) (ops : List Op) :
    ∀ (s s1 : State),
      (∀ o ∈ ops, (∃ f, o = Op.SetFrame f) ∨ (∃ b, o = Op.SetStatic b)) →
      s.I1 → run c ops s = .ok s1 → s1.I1 := by
  induction ops with
  | nil =>
    intro s s1 _ h hrun
    simp [run] at hrun
    cases hrun
    exact h
  | cons o rest ih =>
    intro s s1 hops h hrun
    have ho := hops o (List.mem_cons_self _ _)
    have hrest : ∀ o1 ∈ rest, (∃ f, o1 = Op.SetFrame f) ∨ (∃ b, o1 = Op.SetStatic b) :=
      fun o1 h1 => hops o1 (List.mem_cons_of_mem _ h1)
    rcases ho with ⟨f, rfl⟩ | ⟨b, rfl⟩
    · simp only [run, Op.step] at hrun
      exact ih _ _ hrest (SetFrame_I1 f s h) hrun
    · simp only [run, Op.step] at hrun
      cases hst : SetStatic b s with
      | error e => rw [hst] at hrun; cases hrun
      | ok s2 =>
        rw [hst] at hrun
        exact ih _ _ hrest (SetStatic_I1 b s s2 h hst) hrun

theorem SetPosition_world (p : vector3d) (s : State) :
    (SetPosition p s).frames = s.frames ∧ (SetPosition p s).trace = s.trace := by
  cases hg : s.mb.m_geom with
  | none => simp [SetPosition, hg]
  | some g =>
    cases hs : s.mb.m_isStatic <;> simp [SetPosition, hg, hs, SetFrame]

theorem SetColliding_eq (c : Bool) (s : State) :
    SetColliding c s
      = { s with
          mb := { s.mb with
                  m_colliding := c,
                  m_geom := s.mb.m_geom.map (fun g => { g with active := c }) } } := by
  cases hg : s.mb.m_geom <;> cases c <;> simp [SetColliding, hg, Geom.Enable, Geom.Disable]

/-! ## Rebuilding the proxy -/

theorem SetModel_found (c : Collab) (id : String) (a : ModelAsset) (s : State)
    (h : c.FindModel id = some a) :
    SetModel c id s = RebuildCollisionMesh (withNewModel s id a) := by
  cases hm : s.mb.m_model <;> simp [SetModel, withNewModel, hm, h]

theorem SetModel_not_found (c : Collab) (id : String) (s : State)
    (h : c.FindModel id = none) :
    SetModel c id s = .error Fault.modelNotFound := by
  cases hm : s.mb.m_model <;> simp [SetModel, hm, h]

theorem withNewModel_mb (s : State) (id : String) (a : ModelAsset) :
    (withNewModel s id a).mb
      = { s.mb with m_model := some a.MakeInstance, m_modelName := id,
                    m_clipRadius := a.MakeInstance.GetDrawClipRadius } := by
  cases hm : s.mb.m_model <;> simp [withNewModel, hm]

theorem withNewModel_frames (s : State) (id : String) (a : ModelAsset) :
    (withNewModel s id a).frames = s.frames ∧ (withNewModel s id a).nextGeom = s.nextGeom := by
  cases hm : s.mb.m_model <;> simp [withNewModel, hm, State.record]

theorem Rebuild_ok (s s1 : State) (h : RebuildCollisionMesh s = .ok s1) :
    ∃ m, s.mb.m_model = some m ∧ s1.mb = rebuiltBody s m ∧ s1.nextGeom = s.nextGeom + 1 ∧
      (s.mb.m_geom = none ∨ s.mb.m_frame ≠ none) := by
  cases hm : s.mb.m_model with
  | none =>
    cases hg : s.mb.m_geom <;> cases hf : s.mb.m_frame <;> cases hs : s.mb.m_isStatic <;>
      simp [RebuildCollisionMesh, hm, hg, hf, hs] at h
  | some m =>
    refine ⟨m, rfl, ?_⟩
    cases hg : s.mb.m_geom <;> cases hf : s.mb.m_frame <;> cases hs : s.mb.m_isStatic <;>
      simp [RebuildCollisionMesh, hm, hg, hf, hs, State.record] at h <;>
      subst h <;>
      simp [rebuiltBody, rebuiltGeom, Geom.create, Geom.SetUserData, Geom.MoveTo, hs, hf, hm,
        State.AddGeom, State.AddStaticGeom, State.RemoveGeom, State.RemoveStaticGeom,
        State.onFrame]

theorem Rebuild_completes (s : State) (m : Model) (hm : s.mb.m_model = some m)
    (h : s.mb.m_geom = none ∨ s.mb.m_frame ≠ none) :
    ∃ s1, RebuildCollisionMesh s = .ok s1 := by
  cases hg : s.mb.m_geom <;> cases hf : s.mb.m_frame <;> cases hs : s.mb.m_isStatic <;>
    simp_all [RebuildCollisionMesh]

@[simp] theorem RemoveGeom_nextGeom (s : State) (f : FrameId) (p : GeomPtr) :
    (s.RemoveGeom f p).nextGeom = s.nextGeom := rfl

@[simp] theorem RemoveStaticGeom_nextGeom (s : State) (f : FrameId) (p : GeomPtr) :
    (s.RemoveStaticGeom f p).nextGeom = s.nextGeom := rfl

theorem Rebuild_regCount (s s1 : State) (h : RebuildCollisionMesh s = .ok s1)
    (k : FrameId) (b : Bool) (p : GeomPtr) :
    s1.regCount k b p
      = s.regCount k b p
        - (if s.mb.m_frame = some k ∧ b = s.mb.m_isStatic ∧ s.mb.geomPtr = p ∧ p ≠ none
            then 1 else 0)
        + (if s.mb.m_frame = some k ∧ b = s.mb.m_isStatic ∧ p = some s.nextGeom
            then 1 else 0) := by
  have e1 : ∀ f g, List.count p (((s.RemoveGeom f g).frames k).partition b)
      = List.count p ((s.frames k).partition b)
        - (if k = f ∧ b = false ∧ g = p then 1 else 0) :=
    fun f g => regCount_RemoveGeom s f g k b p
  have e2 : ∀ f g, List.count p (((s.RemoveStaticGeom f g).frames k).partition b)
      = List.count p ((s.frames k).partition b)
        - (if k = f ∧ b = true ∧ g = p then 1 else 0) :=
    fun f g => regCount_RemoveStaticGeom s f g k b p
  cases hm : s.mb.m_model with
  | none =>
    cases hg : s.mb.m_geom <;> cases hf : s.mb.m_frame <;> cases hs : s.mb.m_isStatic <;>
      simp [RebuildCollisionMesh, hm, hg, hf, hs] at h
  | some m =>
    cases hg : s.mb.m_geom <;> cases hf : s.mb.m_frame <;> cases hs : s.mb.m_isStatic <;>
      simp [RebuildCollisionMesh, hm, hg, hf, hs, State.record] at h <;>
      subst h <;> cases b <;>
      (try simp only [regCount_AddGeom, regCount_AddStaticGeom, regCount_RemoveGeom,
        regCount_RemoveStaticGeom]) <;>
      simp [Geom.create, Geom.SetUserData, Geom.MoveTo, hf, ModelBody.geomPtr, hg,
        State.regCount, e1, e2, eq_comm] <;>
      (by_cases hp : p = none <;> simp [hp])

theorem Rebuild_reattached (s s1 : State) (F : FrameId)
    (hf : s.mb.m_frame = some F)
    (hnew : s.Unregistered (some s.nextGeom))
    (hold : ∀ g, s.mb.m_geom = some g → s.RegisteredOnlyAt (some g.id) F s.mb.m_isStatic)
    (h : RebuildCollisionMesh s = .ok s1) :
    Reattached s F s1 := by
  obtain ⟨m, hm, hmb, hnext, _⟩ := Rebuild_ok s s1 h
  have hcount := Rebuild_regCount s s1 h
  have hnew0 : ∀ k b, s.regCount k b (some s.nextGeom) = 0 := hnew
  have hst : s1.mb.m_isStatic = s.mb.m_isStatic := by rw [hmb]; rfl
  refine ⟨by rw [hmb]; exact hf, hst, ⟨rebuiltGeom s m, by rw [hmb]; rfl, rfl, ?_⟩, ?_⟩
  · intro k b
    show s1.regCount k b (some s.nextGeom) = _
    rw [hcount, hnew0, hf, hst]
    rcases eq_or_ne k F with rfl | hk
    · by_cases hb : b = s.mb.m_isStatic <;> simp_all
    · have hk1 : F ≠ k := hk.symm
      by_cases hb : b = s.mb.m_isStatic <;> simp_all
  · intro g hg k b
    have hreg : ∀ k b, s.regCount k b (some g.id)
        = if k = F ∧ b = s.mb.m_isStatic then 1 else 0 := hold g hg
    have hne : g.id ≠ s.nextGeom := by
      intro e
      have h1 := hreg F s.mb.m_isStatic
      rw [e, hnew0] at h1
      simp at h1
    rw [hcount, hreg, hf]
    have hp : s.mb.geomPtr = some g.id := by simp [ModelBody.geomPtr, hg]
    rcases eq_or_ne k F with rfl | hk
    · by_cases hb : b = s.mb.m_isStatic <;> simp_all
    · have hk1 : F ≠ k := hk.symm
      by_cases hb : b = s.mb.m_isStatic <;> simp_all

theorem SetModel_post_of_ok (c : Collab) (id : String) (s s1 : State)
    (h : SetModel c id s = .ok s1) :
    ∃ a, c.FindModel id = some a ∧ SetModelPost id a s.mb.self s1 := by
  cases hfind : c.FindModel id with
  | none => rw [SetModel_not_found c id s hfind] at h; cases h
  | some a =>
    rw [SetModel_found c id a s hfind] at h
    obtain ⟨m, hm, hmb, _, _⟩ := Rebuild_ok _ _ h
    rw [withNewModel_mb] at hm
    have hm1 : a.MakeInstance = m := by simpa using hm
    subst hm1
    refine ⟨a, rfl, ?_⟩
    simp [SetModelPost, hmb, rebuiltBody, rebuiltGeom, withNewModel_mb]

/-! ## Pose -/

theorem SetStatic_mb (b : Bool) (s s1 : State) (h : SetStatic b s = .ok s1) :
    s1.mb = { s.mb with m_isStatic := b } := by
  by_cases hb : b = s.mb.m_isStatic
  · simp [SetStatic, hb] at h
    subst h
    rw [hb]
  · cases hg : s.mb.m_geom <;> cases hf : s.mb.m_frame <;> cases b <;>
      simp [SetStatic, hb, hg, hf] at h <;> subst h <;> simp_all

theorem SetPosition_mb (p : vector3d) (s : State) :
    (SetPosition p s).mb
      = { s.mb with m_position := p,
                    m_geom := s.mb.m_geom.map (fun g => g.MoveTo s.mb.m_orient p) } := by
  cases hg : s.mb.m_geom with
  | none => simp [SetPosition, hg]
  | some g => cases hs : s.mb.m_isStatic <;> simp [SetPosition, hg, hs, SetFrame]

theorem SetOrient_mb (m : matrix3x3d) (s : State) :
    (SetOrient m s).mb
      = { s.mb with m_orient := m,
                    m_geom := s.mb.m_geom.map (fun g => g.MoveTo m s.mb.m_position) } := by
  cases hg : s.mb.m_geom <;> simp [SetOrient, hg]

theorem SetModel_PoseSynced (c : Collab) (id : String) (s s1 : State)
    (h : SetModel c id s = .ok s1) : s1.PoseSynced := by
  cases hfind : c.FindModel id with
  | none => rw [SetModel_not_found c id s hfind] at h; cases h
  | some a =>
    rw [SetModel_found c id a s hfind] at h
    obtain ⟨m, _, hmb, _, _⟩ := Rebuild_ok _ _ h
    intro g hg
    rw [hmb] at hg ⊢
    simp only [rebuiltBody, Option.some.injEq] at hg
    subst hg
    exact ⟨rfl, rfl⟩

theorem Load_mb (c : Collab) (rd rd1 : Stream) (s s1 : State)
    (h : Load c rd s = .ok (s1, rd1)) :
    ∃ s4 name s3 m1, SetModel c name s3 = .ok s4 ∧
      s1 = { s4 with mb := { s4.mb with m_model := some m1 } } := by
  unfold Load at h
  split at h
  · cases h
  · simp only at h
    split at h
    · cases h
    · split at h
      · cases h
      · split at h
        · cases h
        · split at h
          · cases h
          · rename_i s4 hs4
            split at h
            · cases h
            · split at h
              · cases h
              · simp only [Except.ok.injEq, Prod.mk.injEq] at h
                exact ⟨s4, _, _, _, hs4, h.1.symm⟩

theorem step_PoseSynced (c : Collab) (o : Op) (s s1 : State) (hs : s.PoseSynced)
    (h : o.step c s = .ok s1) : s1.PoseSynced := by
  cases o with
  | SetModel n => exact SetModel_PoseSynced c n s s1 h
  | SetFrame f =>
    simp only [Op.step, Except.ok.injEq] at h
    subst h
    intro g hg
    rw [SetFrame_mb] at hg ⊢
    exact hs g hg
  | SetStatic b =>
    have hmb := SetStatic_mb b s s1 h
    intro g hg
    rw [hmb] at hg ⊢
    exact hs g hg
  | SetColliding b =>
    simp only [Op.step, Except.ok.injEq] at h
    subst h
    intro g hg
    rw [SetColliding_eq] at hg ⊢
    cases hg0 : s.mb.m_geom with
    | none => simp [hg0] at hg
    | some g0 =>
      simp [hg0] at hg
      subst hg
      exact hs g0 hg0
  | SetPosition p =>
    simp only [Op.step, Except.ok.injEq] at h
    subst h
    intro g hg
    rw [SetPosition_mb] at hg ⊢
    cases hg0 : s.mb.m_geom with
    | none => simp [hg0] at hg
    | some g0 =>
      simp [hg0] at hg
      subst hg
      exact ⟨rfl, rfl⟩
  | SetOrient m =>
    simp only [Op.step, Except.ok.injEq] at h
    subst h
    intro g hg
    rw [SetOrient_mb] at hg ⊢
    cases hg0 : s.mb.m_geom with
    | none => simp [hg0] at hg
    | some g0 =>
      simp [hg0] at hg
      subst hg
      exact ⟨rfl, rfl⟩
  | Load rd =>
    simp only [Op.step] at h
    cases hl : Load c rd s with
    | error e => rw [hl] at h; cases h
    | ok r =>
      obtain ⟨s2, rd1⟩ := r
      rw [hl] at h
      simp only [Except.ok.injEq] at h
      subst h
      obtain ⟨s4, name, s3, m1, h4, rfl⟩ := Load_mb c rd rd1 s s2 hl
      exact SetModel_PoseSynced c name s3 s4 h4

theorem run_PoseSynced (c : Collab) (ops : List Op) :
    ∀ s s1 : State, s.PoseSynced → run c ops s = .ok s1 → s1.PoseSynced := by
  induction ops with
  | nil =>
    intro s s1 hs h
    simp only [run, Except.ok.injEq] at h
    subst h
    exact hs
  | cons o rest ih =>
    intro s s1 hs h
    simp only [run] at h
    cases ho : o.step c s with
    | error e => rw [ho] at h; cases h
    | ok s2 =>
      rw [ho] at h
      exact ih s2 s1 (step_PoseSynced c o s s2 hs ho) h

/-! ## Radii -/

theorem SetModel_ModelDerived (c : Collab) (id : String) (s s1 : State)
    (h : SetModel c id s = .ok s1) : s1.ModelDerived c := by
  obtain ⟨a, ha, h1, h2, h3, _, h5, _⟩ := SetModel_post_of_ok c id s s1 h
  exact ⟨by rw [h2]; simp, a, by rw [h1]; exact ha, h3, h5⟩

theorem I2_of_mb (c : Collab) (s s1 : State) (hs : s.I2 c)
    (h1 : s1.mb.m_model = s.mb.m_model) (h2 : s1.mb.m_modelName = s.mb.m_modelName)
    (h3 : s1.mb.m_clipRadius = s.mb.m_clipRadius)
    (h4 : s1.mb.m_physRadius = s.mb.m_physRadius) : s1.I2 c := by
  rcases hs with hs | ⟨hne, a, ha, hc, hp⟩
  · exact Or.inl (by rw [h1]; exact hs)
  · exact Or.inr ⟨by rw [h1]; exact hne, a, by rw [h2]; exact ha, by rw [h3]; exact hc,
      by rw [h4]; exact hp⟩

theorem step_I2 (c : Collab) (o : Op) (s s1 : State) (hs : s.I2 c)
    (h : o.step c s = .ok s1) : s1.I2 c := by
  cases o with
  | SetModel n => exact Or.inr (SetModel_ModelDerived c n s s1 h)
  | SetFrame f =>
    simp only [Op.step, Except.ok.injEq] at h
    subst h
    exact I2_of_mb c s _ hs (by rw [SetFrame_mb]) (by rw [SetFrame_mb]) (by rw [SetFrame_mb])
      (by rw [SetFrame_mb])
  | SetStatic b =>
    have hmb := SetStatic_mb b s s1 h
    exact I2_of_mb c s _ hs (by rw [hmb]) (by rw [hmb]) (by rw [hmb]) (by rw [hmb])
  | SetColliding b =>
    simp only [Op.step, Except.ok.injEq] at h
    subst h
    exact I2_of_mb c s _ hs (by rw [SetColliding_eq]) (by rw [SetColliding_eq])
      (by rw [SetColliding_eq]) (by rw [SetColliding_eq])
  | SetPosition p =>
    simp only [Op.step, Except.ok.injEq] at h
    subst h
    exact I2_of_mb c s _ hs (by rw [SetPosition_mb]) (by rw [SetPosition_mb])
      (by rw [SetPosition_mb]) (by rw [SetPosition_mb])
  | SetOrient m =>
    simp only [Op.step, Except.ok.injEq] at h
    subst h
    exact I2_of_mb c s _ hs (by rw [SetOrient_mb]) (by rw [SetOrient_mb])
      (by rw [SetOrient_mb]) (by rw [SetOrient_mb])
  | Load rd =>
    simp only [Op.step] at h
    cases hl : Load c rd s with
    | error e => rw [hl] at h; cases h
    | ok r =>
      obtain ⟨s2, rd1⟩ := r
      rw [hl] at h
      simp only [Except.ok.injEq] at h
      subst h
      obtain ⟨s4, name, s3, m1, h4, rfl⟩ := Load_mb c rd rd1 s s2 hl
      obtain ⟨_, a, ha, hc, hp⟩ := SetModel_ModelDerived c name s3 s4 h4
      exact Or.inr ⟨by simp, a, ha, hc, hp⟩

/-- Invariant I2 along every sequence of calls that runs to its end: an entity that
holds a model has the radii derived from the model it is named after. -/
theorem run_I2 (c : Collab) (ops : List Op) :
    ∀ s s1 : State, s.I2 c → run c ops s = .ok s1 → s1.I2 c := by
  induction ops with
  | nil =>
    intro s s1 hs h
    simp only [run, Except.ok.injEq] at h
    subst h
    exact hs
  | cons o rest ih =>
    intro s s1 hs h
    simp only [run] at h
    cases ho : o.step c s with
    | error e => rw [ho] at h; cases h
    | ok s2 =>
      rw [ho] at h
      exact ih s2 s1 (step_I2 c o s s2 hs ho) h

/-! ## Persistence -/

theorem Save_eq (c : Collab) (E : State) (m : Model) (wr : Stream)
    (hm : E.mb.m_model = some m) :
    Save c E wr = .ok (wr ++ c.bodySave E.mb.toBody ++ [Tok.Bool E.mb.m_isStatic]
      ++ [Tok.Bool E.mb.m_colliding] ++ [Tok.String E.mb.m_modelName] ++ c.modelSave m) := by
  simp [Save, hm]

theorem Load_eq (c : Collab) (s s4 : State) (b : Body) (isStatic colliding : Bool)
    (name : String) (rd rd4 rd5 : Stream) (m m1 : Model)
    (h1 : c.bodyLoad s.mb.toBody rd
      = some (b, Tok.Bool isStatic :: Tok.Bool colliding :: Tok.String name :: rd4))
    (h2 : SetModel c name (loadedFlags s b isStatic colliding) = .ok s4)
    (h3 : s4.mb.m_model = some m)
    (h4 : c.modelLoad m rd4 = some (m1, rd5)) :
    Load c rd s = .ok ({ s4 with mb := { s4.mb with m_model := some m1 } }, rd5) := by
  simp only [loadedFlags] at h2
  simp [Load, h1, Reader.Bool, Reader.String, h2, h3, h4]

/-! ## Faults on a null frame -/

theorem SetStatic_detached (b : Bool) (s : State) (g : Geom)
    (hg : s.mb.m_geom = some g) (hf : s.mb.m_frame = none) (hne : b ≠ s.mb.m_isStatic) :
    SetStatic b s = .error Fault.nullFrame := by
  cases b <;> simp [SetStatic, hne, hg, hf]

theorem Rebuild_detached (s : State) (g : Geom)
    (hg : s.mb.m_geom = some g) (hf : s.mb.m_frame = none) :
    RebuildCollisionMesh s = .error Fault.nullFrame := by
  simp [RebuildCollisionMesh, hg, hf]

theorem SetModel_detached (c : Collab) (id : String) (a : ModelAsset) (s : State) (g : Geom)
    (hfind : c.FindModel id = some a)
    (hg : s.mb.m_geom = some g) (hf : s.mb.m_frame = none) :
    SetModel c id s = .error Fault.nullFrame := by
  rw [SetModel_found c id a s hfind]
  apply Rebuild_detached _ g
  · rw [withNewModel_mb]; exact hg
  · rw [withNewModel_mb]; exact hf

/-! ## Rendering -/

theorem RenderModel_eq (ar : Arith) (io : matrix3x3d) (ip : vector3d) (trans0 : matrix4x4f)
    (vc : vector3d) (vt : matrix4x4d) (s : State) :
    RenderModel ar io ip trans0 vc vt s
      = match s.mb.m_model with
        | some _ => .ok (renderTrans ar io ip trans0 vc vt)
        | none => .error Fault.nullModel := by
  cases hm : s.mb.m_model <;> simp [RenderModel, renderTrans, hm]

theorem renderTrans_cell (ar : Arith) (io : matrix3x3d) (ip : vector3d) (trans0 : matrix4x4f)
    (vc : vector3d) (vt : matrix4x4d) :
    (renderTrans ar io ip trans0 vc vt).cell 12 = ar.narrow vc.x ∧
    (renderTrans ar io ip trans0 vc vt).cell 13 = ar.narrow vc.y ∧
    (renderTrans ar io ip trans0 vc vt).cell 14 = ar.narrow vc.z ∧
    (renderTrans ar io ip trans0 vc vt).cell 15 = Single.one ∧
    ∀ i : Fin 16, i.val < 12 →
      (renderTrans ar io ip trans0 vc vt).cell i
        = ar.narrow ((matrix4x4d.mul ar vt
            ((matrix4x4d.ofMatrix3x3 io).SetTranslate ip)).cell i) := by
  refine ⟨rfl, rfl, rfl, rfl, ?_⟩
  intro i hi
  fin_cases i <;> first | rfl | (exact absurd hi (by decide))

theorem renderTrans_position (ar : Arith) (io : matrix3x3d) (p1 p2 : vector3d)
    (a b : matrix4x4f) (vc : vector3d) (vt : matrix4x4d) :
    renderTrans ar io p1 a vc vt = renderTrans ar io p2 b vc vt := by
  have h : ∀ i : Fin 16, (renderTrans ar io p1 a vc vt).cell i
      = (renderTrans ar io p2 b vc vt).cell i := by
    intro i
    fin_cases i <;> rfl
  cases h1 : renderTrans ar io p1 a vc vt with
  | mk c1 =>
    cases h2 : renderTrans ar io p2 b vc vt with
    | mk c2 =>
      rw [h1, h2] at h
      simp only [matrix4x4f.mk.injEq]
      exact funext h

/-! ## Order of effects -/

theorem withNewModel_trace (s : State) (id : String) (a : ModelAsset) :
    (withNewModel s id a).trace
      = s.trace ++ (match s.mb.m_model with
                    | some old => [Event.DeleteModel old]
                    | none => []) ++ [Event.NewModel a.MakeInstance] := by
  cases hm : s.mb.m_model <;> simp [withNewModel, hm, State.record]

theorem Rebuild_attached_trace (s : State) (g : Geom) (F : FrameId) (m : Model)
    (hm : s.mb.m_model = some m) (hg : s.mb.m_geom = some g) (hf : s.mb.m_frame = some F) :
    ∃ s1, RebuildCollisionMesh s = .ok s1 ∧
      s1.trace = s.trace ++
        [if s.mb.m_isStatic then Event.RemoveStaticGeom F (some g.id)
           else Event.RemoveGeom F (some g.id),
         Event.DeleteGeom g.id, Event.NewGeom s.nextGeom,
         if s.mb.m_isStatic then Event.AddStaticGeom F (some s.nextGeom)
           else Event.AddGeom F (some s.nextGeom)] := by
  cases hs : s.mb.m_isStatic <;>
    simp [RebuildCollisionMesh, hm, hg, hf, hs, State.record, State.AddGeom,
      State.AddStaticGeom, State.RemoveGeom, State.RemoveStaticGeom, State.onFrame,
      Geom.create, Geom.SetUserData, Geom.MoveTo]

/-! ## Destruction -/

theorem Destructor_eq (s : State) :
    (Destructor s).mb = (SetFrame none s).mb ∧
    (Destructor s).frames = (SetFrame none s).frames ∧
    (Destructor s).trace = (SetFrame none s).trace ++
      (match s.mb.m_geom with
       | some g => [Event.DeleteGeom g.id]
       | none => []) ++
      (match s.mb.m_model with
       | some m => [Event.DeleteModel m]
       | none => []) := by
  have hmb := SetFrame_mb none s
  cases hg : s.mb.m_geom <;> cases hm : s.mb.m_model <;>
    simp [Destructor, hmb, hg, hm, State.record]

theorem SetFrame_others (f : Option FrameId) (s : State) (p : GeomPtr)
    (hp : p ≠ s.mb.geomPtr) (k : FrameId) (b : Bool) :
    (SetFrame f s).regCount k b p = s.regCount k b p := by
  by_cases hf : f = s.mb.m_frame
  · subst hf; rw [SetFrame_same]
  · rw [SetFrame_regCount f s hf]
    have hp1 : ¬ s.mb.geomPtr = p := fun e => hp e.symm
    simp [hp1]

/-! ## The scenarios -/

theorem Demo.staticInF1_frames (k : FrameId) :
    Demo.staticInF1.frames k = if k = 1 then Frame.mk [] [some 0] else Frame.empty := by
  by_cases hk : k = 1
  · subst hk; rfl
  · simp [Demo.staticInF1, Demo.inF1, Demo.withModel, okOr, SetStatic, SetFrame, SetModel,
      RebuildCollisionMesh, Demo.collab, Demo.fresh, State.create, ModelBody.create,
      Body.create, State.record, State.AddGeom, State.AddStaticGeom, State.RemoveGeom,
      State.onFrame, hk, ModelAsset.MakeInstance, Geom.create, Geom.SetUserData, Geom.MoveTo,
      ModelBody.geomPtr]

theorem Demo.attachedNoModel_frames (k : FrameId) :
    Demo.attachedNoModel.frames k = if k = 1 then Frame.mk [] [none] else Frame.empty := by
  by_cases hk : k = 1
  · subst hk; rfl
  · simp [Demo.attachedNoModel, okOr, SetStatic, SetFrame, Demo.fresh, State.create,
      ModelBody.create, Body.create, State.AddStaticGeom, State.onFrame, hk,
      ModelBody.geomPtr]

theorem Demo.collab_bodyLoad (b0 b : Body) (rd : Stream) :
    ∃ b1, Demo.collab.bodyLoad b0 (Demo.collab.bodySave b ++ rd) = some (b1, rd) :=
  ⟨_, rfl⟩

theorem Demo.collab_modelLoad (m0 m : Model) (rd : Stream) :
    ∃ m1, Demo.collab.modelLoad m0 (Demo.collab.modelSave m ++ rd) = some (m1, rd) := by
  refine ⟨{ m0 with instState := m.instState }, ?_⟩
  simp [Demo.collab]

theorem Demo.staticInF2_I1 : Demo.staticInF2.I1 := by
  have h0 : Demo.withModel.I1 := by
    intro g _ k b
    have hfr : Demo.withModel.frames k = Frame.empty := rfl
    cases b <;> simp [State.regCount, hfr, Frame.partition, Frame.empty]
  have h1 : Demo.inF1.I1 := SetFrame_I1 (some 1) Demo.withModel h0
  have h2 : Demo.staticInF1.I1 := SetStatic_I1 true Demo.inF1 Demo.staticInF1 h1 rfl
  exact SetFrame_I1 (some 2) Demo.staticInF1 h2

/-! ## The claims -/

/-- C1 (registration exclusivity), at the input where the code departs from it: the
entity has a proxy, no frame and `m_isStatic = false`; `SetStatic(true)` then calls
`RemoveGeom` through the null `GetFrame()`, so the call does not complete, where the
claim has the proxy registered in no frame afterwards. -/
theorem SetStatic_detached_faults :
    Demo.withModel.mb.m_geom.isSome = true ∧ Demo.withModel.mb.m_frame = none ∧
    Demo.withModel.mb.m_isStatic = false ∧
    faultOf (SetStatic true Demo.withModel) = some Fault.nullFrame ∧
    faultOf (run Demo.collab [Op.SetModel "probe", Op.SetStatic true] Demo.fresh)
      = some Fault.nullFrame := by
  decide

/-- C2 (SetStatic migration): an entity with a proxy, attached to frame `F`, whose
proxy is registered exactly once, in the partition of `F` that matches `m_isStatic`;
`SetStatic` with the other value completes, sets the flag, issues the removal from
the old partition and then the addition to the other one, and leaves the proxy
registered exactly once, in the partition of `F` that matches the new flag; the
frame, the proxy and the registries of every other frame are as before. -/
theorem SetStatic_migrates (s : State) (g : Geom) (F : FrameId) (isStatic : Bool)
    (hg : s.mb.m_geom = some g) (hf : s.mb.m_frame = some F)
    (hreg : s.RegisteredOnlyAt (some g.id) F s.mb.m_isStatic)
    (hne : isStatic ≠ s.mb.m_isStatic) :
    ∃ s1, SetStatic isStatic s = .ok s1 ∧
      s1.mb.m_isStatic = isStatic ∧ s1.mb.m_frame = some F ∧ s1.mb.m_geom = some g ∧
      s1.regCount F isStatic (some g.id) = 1 ∧
      s1.regCount F (!isStatic) (some g.id) = 0 ∧
      s1.RegisteredOnlyAt (some g.id) F isStatic ∧
      (∀ f, f ≠ F → s1.frames f = s.frames f) ∧
      s1.trace = s.trace ++
        (if isStatic then [Event.RemoveGeom F (some g.id), Event.AddStaticGeom F (some g.id)]
         else [Event.RemoveStaticGeom F (some g.id), Event.AddGeom F (some g.id)]) := by
  have hreg1 : ∀ f b, s.regCount f b (some g.id)
      = if f = F ∧ b = s.mb.m_isStatic then 1 else 0 := hreg
  have hs : s.mb.m_isStatic = !isStatic := by
    cases h : s.mb.m_isStatic <;> cases isStatic <;> simp_all
  have hall : (migrated s F (some g.id) isStatic).RegisteredOnlyAt (some g.id) F isStatic := by
    intro f b
    cases isStatic <;> cases b <;> by_cases hk : f = F <;>
      simp [migrated, hreg1, hs, hk]
  refine ⟨_, SetStatic_attached s g F isStatic hg hf hne, ?_, ?_, ?_, ?_, ?_, hall, ?_, ?_⟩
  · cases isStatic <;> rfl
  · cases isStatic <;> simpa [migrated] using hf
  · cases isStatic <;> simpa [migrated] using hg
  · simpa using hall F isStatic
  · have := hall F (!isStatic)
    cases isStatic <;> simpa using this
  · intro f hfF
    cases isStatic <;>
      simp [migrated, State.AddGeom, State.AddStaticGeom, State.RemoveGeom,
        State.RemoveStaticGeom, State.onFrame, hfF]
  · cases isStatic <;>
      simp [migrated, State.AddGeom, State.AddStaticGeom, State.RemoveGeom,
        State.RemoveStaticGeom, State.onFrame]

/-- C2 witness: after `SetModel`, `SetFrame(F1)`, `SetStatic(true)` the proxy is in
F1's static partition and not in its dynamic one. -/
theorem SetStatic_migrates_witness :
    Demo.inF1.mb.m_geom = some (Geom.mk 0 11 (some 7) matrix3x3d.identity vector3d.zero true) ∧
    Demo.inF1.mb.m_frame = some 1 ∧
    Demo.inF1.RegisteredOnlyAt (some 0) 1 Demo.inF1.mb.m_isStatic ∧
    true ≠ Demo.inF1.mb.m_isStatic ∧
    ∃ s1, SetStatic true Demo.inF1 = .ok s1 ∧
      s1.mb.m_isStatic = true ∧ s1.mb.m_frame = some 1 ∧
      s1.mb.m_geom = some (Geom.mk 0 11 (some 7) matrix3x3d.identity vector3d.zero true) ∧
      s1.regCount 1 true (some 0) = 1 ∧
      s1.regCount 1 (!true) (some 0) = 0 ∧
      s1.RegisteredOnlyAt (some 0) 1 true ∧
      (∀ f, f ≠ 1 → s1.frames f = Demo.inF1.frames f) ∧
      s1.trace = Demo.inF1.trace ++
        (if true = true then [Event.RemoveGeom 1 (some 0), Event.AddStaticGeom 1 (some 0)]
         else [Event.RemoveStaticGeom 1 (some 0), Event.AddGeom 1 (some 0)]) := by
  have hreg : Demo.inF1.RegisteredOnlyAt (some 0) 1 Demo.inF1.mb.m_isStatic := by
    intro f b
    have hfr : Demo.inF1.frames f = if f = 1 then Frame.mk [some 0] [] else Frame.empty := by
      by_cases hf : f = 1
      · subst hf; rfl
      · simp only [hf, if_false]
        show (if f = 1 then _ else _) = _
        simp [hf]
        rfl
    have hst : Demo.inF1.mb.m_isStatic = false := by decide
    simp only [State.regCount, hfr, hst]
    by_cases hf : f = 1 <;> cases b <;> simp [hf, Frame.partition, Frame.empty]
  exact ⟨by decide, by decide, hreg, by decide,
    SetStatic_migrates Demo.inF1 _ 1 true (by decide) (by decide) hreg (by decide)⟩

/-- C3 (SetFrame without a proxy), at the input where the code departs from it: a new
entity has no proxy, yet `SetFrame(F1)` calls `F1->AddGeom` with the null `m_geom`,
and `SetFrame(null)` after it calls `F1->RemoveGeom` with it; the claim has no add or
remove call issued. -/
theorem SetFrame_without_proxy_calls_frame :
    Demo.fresh.mb.m_geom = none ∧ Demo.fresh.mb.m_frame = none ∧
    (SetFrame (some 1) Demo.fresh).trace = [Event.AddGeom 1 none] ∧
    ((SetFrame (some 1) Demo.fresh).frames 1).geoms = [none] ∧
    (SetFrame none (SetFrame (some 1) Demo.fresh)).trace
      = [Event.AddGeom 1 none, Event.RemoveGeom 1 none] := by
  decide

/-- C4 (benign no-ops): `SetFrame` with the current frame and `SetStatic` with the
current flag return the state as it was, `SetColliding` with the current flag leaves
every frame's registries and the record of frame calls as they were, and
`SetFrame(f)` twice is `SetFrame(f)` once. -/
theorem benign_noops (s : State) (f : Option FrameId) :
    SetFrame s.mb.m_frame s = s ∧
    SetStatic s.mb.m_isStatic s = .ok s ∧
    (SetColliding s.mb.m_colliding s).frames = s.frames ∧
    (SetColliding s.mb.m_colliding s).trace = s.trace ∧
    SetFrame f (SetFrame f s) = SetFrame f s := by
  refine ⟨SetFrame_same s, by simp [SetStatic], ?_, ?_, ?_⟩
  · rw [SetColliding_eq]
  · rw [SetColliding_eq]
  · have h := SetFrame_same (SetFrame f s)
    rw [SetFrame_mb] at h
    exact h

/-- C5 (static re-attachment on move), at the input where the code departs from it:
the entity is static, has a proxy and is attached to F1; `SetPosition` calls
`SetFrame(GetFrame())`, which returns at once because the frame is the current one,
so F1 receives no `RemoveStaticGeom` and no `AddStaticGeom`. -/
theorem SetPosition_static_no_reattach :
    Demo.staticInF1.mb.m_isStatic = true ∧ Demo.staticInF1.mb.m_geom.isSome = true ∧
    Demo.staticInF1.mb.m_frame = some 1 ∧
    (SetPosition Demo.somewhere Demo.staticInF1).trace = Demo.staticInF1.trace ∧
    (SetPosition Demo.somewhere Demo.staticInF1).frames = Demo.staticInF1.frames := by
  refine ⟨by decide, by decide, by decide, ?_, ?_⟩
  · exact (SetPosition_world _ _).2
  · exact (SetPosition_world _ _).1

/-- C6 (pose synchronisation): with a proxy, `SetPosition(p)` stores `p` and leaves
the proxy at (current orientation, `p`), and `SetOrient(m)` stores `m` and leaves the
proxy at (`m`, current position); and every sequence of calls that starts with the
proxy, if any, at the entity's pose ends with the proxy, if any, at the entity's
pose. -/
theorem pose_synchronised (c : Collab) :
    (∀ (s : State) (g : Geom) (p : vector3d), s.mb.m_geom = some g →
      (SetPosition p s).mb.m_position = p ∧
      (SetPosition p s).mb.m_orient = s.mb.m_orient ∧
      ∃ g1, (SetPosition p s).mb.m_geom = some g1 ∧
        g1.orient = s.mb.m_orient ∧ g1.position = p) ∧
    (∀ (s : State) (g : Geom) (m : matrix3x3d), s.mb.m_geom = some g →
      (SetOrient m s).mb.m_orient = m ∧
      (SetOrient m s).mb.m_position = s.mb.m_position ∧
      ∃ g1, (SetOrient m s).mb.m_geom = some g1 ∧
        g1.orient = m ∧ g1.position = s.mb.m_position) ∧
    (∀ (ops : List Op) (s s1 : State),
      s.PoseSynced → run c ops s = .ok s1 → s1.PoseSynced) := by
  refine ⟨?_, ?_, fun ops s s1 => run_PoseSynced c ops s s1⟩
  · intro s g p hg
    rw [SetPosition_mb, hg]
    exact ⟨rfl, rfl, _, rfl, rfl, rfl⟩
  · intro s g m hg
    rw [SetOrient_mb, hg]
    exact ⟨rfl, rfl, _, rfl, rfl, rfl⟩

/-- C6 witness: the tour of the scenario, from a new entity; and a move and a turn
of the entity that holds "probe". -/
theorem pose_synchronised_witness :
    Demo.fresh.PoseSynced ∧ run Demo.collab Demo.tour Demo.fresh = .ok Demo.toured ∧
    Demo.toured.PoseSynced ∧
    Demo.toured.mb.m_geom.map (fun g => (g.orient, g.position))
      = some (Demo.someway, Demo.somewhere) ∧
    Demo.withModel.mb.m_geom
      = some (Geom.mk 0 11 (some 7) matrix3x3d.identity vector3d.zero true) ∧
    (∃ g1, (SetPosition Demo.somewhere Demo.withModel).mb.m_geom = some g1 ∧
      g1.orient = Demo.withModel.mb.m_orient ∧ g1.position = Demo.somewhere) ∧
    (∃ g1, (SetOrient Demo.someway Demo.withModel).mb.m_geom = some g1 ∧
      g1.orient = Demo.someway ∧ g1.position = Demo.withModel.mb.m_position) := by
  have h0 : Demo.fresh.PoseSynced := by
    intro g hg
    have : Demo.fresh.mb.m_geom = none := rfl
    rw [this] at hg
    cases hg
  exact ⟨h0, rfl,
    (pose_synchronised Demo.collab).2.2 Demo.tour Demo.fresh Demo.toured h0 rfl,
    by decide, rfl,
    ((pose_synchronised Demo.collab).1 Demo.withModel _ Demo.somewhere rfl).2.2,
    ((pose_synchronised Demo.collab).2.1 Demo.withModel _ Demo.someway rfl).2.2⟩

/-- C7 (SetColliding is a registration-free toggle): the flag becomes `c`, the proxy,
if there is one, is the same proxy with its enabled flag set to `c`, and the static
flag, the frame, every frame's registries and the record of frame calls are as
before. -/
theorem SetColliding_toggle (c : Bool) (s : State) :
    (SetColliding c s).mb.m_colliding = c ∧
    (SetColliding c s).mb.m_geom = s.mb.m_geom.map (fun g => { g with active := c }) ∧
    (SetColliding c s).mb.m_isStatic = s.mb.m_isStatic ∧
    (SetColliding c s).mb.m_frame = s.mb.m_frame ∧
    (SetColliding c s).frames = s.frames ∧
    (SetColliding c s).trace = s.trace := by
  rw [SetColliding_eq]
  exact ⟨rfl, rfl, rfl, rfl, rfl, rfl⟩

/-- C7 witness: after the scenario's `SetColliding(false)` the proxy is still
registered in F2's static partition, and disabled. -/
theorem SetColliding_toggle_witness :
    ((SetColliding false Demo.staticInF2).frames 2).staticGeoms = [some 0] ∧
    (SetColliding false Demo.staticInF2).mb.m_geom.map Geom.active = some false := by
  have h := SetColliding_toggle false Demo.staticInF2
  refine ⟨?_, ?_⟩
  · rw [h.2.2.2.2.1]; decide
  · rw [h.2.1]; decide

/-- C8 (SetModel postcondition): whenever `SetModel(id)` completes, the lookup found
an asset for `id`, the name recorded is `id`, the entity holds a new instance of that
asset, the clip radius is that instance's draw-clip radius, the physical radius is
the bounding radius of the mesh created from that instance, and there is a proxy
that wraps that mesh's geometry tree and refers back to this entity.  The call
completes when the lookup finds an asset and the entity has no proxy or has a frame.
Two completed calls with the same `id` agree on all these values, whatever model
each state had before. -/
theorem SetModel_postcondition (c : Collab) (id : String) :
    (∀ s s1, SetModel c id s = .ok s1 →
      ∃ a, c.FindModel id = some a ∧ SetModelPost id a s.mb.self s1) ∧
    (∀ s a, c.FindModel id = some a → (s.mb.m_geom = none ∨ s.mb.m_frame ≠ none) →
      ∃ s1, SetModel c id s = .ok s1) ∧
    (∀ s t s1 t1, SetModel c id s = .ok s1 → SetModel c id t = .ok t1 →
      s1.mb.m_modelName = t1.mb.m_modelName ∧ s1.mb.m_model = t1.mb.m_model ∧
      s1.mb.m_clipRadius = t1.mb.m_clipRadius ∧ s1.mb.m_physRadius = t1.mb.m_physRadius ∧
      s1.mb.m_collMesh = t1.mb.m_collMesh ∧
      s1.mb.m_geom.map Geom.geomTree = t1.mb.m_geom.map Geom.geomTree) := by
  refine ⟨fun s s1 h => SetModel_post_of_ok c id s s1 h, ?_, ?_⟩
  · intro s a hfind hs
    rw [SetModel_found c id a s hfind]
    apply Rebuild_completes _ a.MakeInstance
    · rw [withNewModel_mb]
    · rw [withNewModel_mb]; exact hs
  · intro s t s1 t1 hs ht
    obtain ⟨a, ha, h1, h2, h3, h4, h5, g, hg, hg1, _⟩ := SetModel_post_of_ok c id s s1 hs
    obtain ⟨b, hb, k1, k2, k3, k4, k5, g', hg', hg1', _⟩ := SetModel_post_of_ok c id t t1 ht
    rw [ha] at hb
    cases hb
    refine ⟨by rw [h1, k1], by rw [h2, k2], by rw [h3, k3], by rw [h5, k5], by rw [h4, k4], ?_⟩
    rw [hg, hg']
    simp [hg1, hg1']

/-- C8 witness: `SetModel("probe")` on a new entity, and `SetModel("ship.craft")` on
the entity that holds "probe" in frame F1. -/
theorem SetModel_postcondition_witness :
    SetModel Demo.collab "probe" Demo.fresh = .ok Demo.withModel ∧
    (∃ a, Demo.collab.FindModel "probe" = some a ∧ SetModelPost "probe" a 7 Demo.withModel) ∧
    Demo.collab.FindModel "ship.craft" = some Demo.shipCraft ∧
    (Demo.inF1.mb.m_geom = none ∨ Demo.inF1.mb.m_frame ≠ none) ∧
    (∃ s1, SetModel Demo.collab "ship.craft" Demo.inF1 = .ok s1) :=
  ⟨rfl, (SetModel_postcondition Demo.collab "probe").1 Demo.fresh Demo.withModel rfl,
    rfl, Or.inr (by decide),
    (SetModel_postcondition Demo.collab "ship.craft").2.1 Demo.inF1 Demo.shipCraft rfl
      (Or.inr (by decide))⟩

/-- C9 (rebuild re-establishes I1 when attached): an entity attached to frame `F`,
with no proxy or with a proxy registered exactly once, in the partition of `F` that
matches `m_isStatic`, the identity of the proxy to be constructed being registered
nowhere.  `RebuildCollisionMesh`, given a model, and `SetModel`, given a name the
lookup resolves, complete and leave the new proxy registered exactly once, in the
partition of `F` that matches `m_isStatic`, and the old proxy registered nowhere. -/
theorem Rebuild_restores_I1 (s : State) (F : FrameId)
    (hf : s.mb.m_frame = some F)
    (hnew : s.Unregistered (some s.nextGeom))
    (hold : ∀ g, s.mb.m_geom = some g → s.RegisteredOnlyAt (some g.id) F s.mb.m_isStatic) :
    (∀ m, s.mb.m_model = some m →
      ∃ s1, RebuildCollisionMesh s = .ok s1 ∧ Reattached s F s1) ∧
    (∀ (c : Collab) (id : String) (a : ModelAsset), c.FindModel id = some a →
      ∃ s1, SetModel c id s = .ok s1 ∧ Reattached s F s1) := by
  constructor
  · intro m hm
    obtain ⟨s1, h1⟩ := Rebuild_completes s m hm (Or.inr (by rw [hf]; simp))
    exact ⟨s1, h1, Rebuild_reattached s s1 F hf hnew hold h1⟩
  · intro c id a hfind
    have hmb := withNewModel_mb s id a
    obtain ⟨hfr, hnx⟩ := withNewModel_frames s id a
    obtain ⟨s1, h1⟩ := Rebuild_completes (withNewModel s id a) a.MakeInstance
      (by rw [hmb]) (Or.inr (by rw [hmb]; simp [hf]))
    have hR := Rebuild_reattached (withNewModel s id a) s1 F (by rw [hmb]; exact hf)
      (by
        intro k b
        have := hnew k b
        simpa [State.regCount, hfr, hnx] using this)
      (by
        intro g hg k b
        rw [hmb] at hg
        have := hold g hg k b
        rw [hmb]
        simpa [State.regCount, hfr] using this)
      h1
    refine ⟨s1, by rw [SetModel_found c id a s hfind]; exact h1, ?_⟩
    obtain ⟨r1, r2, ⟨g1, r3, r4, r5⟩, r6⟩ := hR
    refine ⟨r1, ?_, ⟨g1, r3, ?_, r5⟩, ?_⟩
    · rw [r2, hmb]
    · rw [r4, hnx]
    · intro g hg
      apply r6 g
      rw [hmb]
      exact hg

/-- C9 witness: the entity made static and attached to F1 before `SetModel`, and the
static entity that already has a proxy registered in F1. -/
theorem Rebuild_restores_I1_witness :
    Demo.attachedNoModel.mb.m_frame = some 1 ∧
    Demo.attachedNoModel.Unregistered (some Demo.attachedNoModel.nextGeom) ∧
    (∀ g, Demo.attachedNoModel.mb.m_geom = some g →
      Demo.attachedNoModel.RegisteredOnlyAt (some g.id) 1 Demo.attachedNoModel.mb.m_isStatic) ∧
    Demo.collab.FindModel "probe" = some Demo.probe ∧
    (∃ s1, SetModel Demo.collab "probe" Demo.attachedNoModel = .ok s1 ∧
      Reattached Demo.attachedNoModel 1 s1) ∧
    Demo.staticInF1.mb.m_frame = some 1 ∧
    Demo.staticInF1.Unregistered (some Demo.staticInF1.nextGeom) ∧
    (∀ g, Demo.staticInF1.mb.m_geom = some g →
      Demo.staticInF1.RegisteredOnlyAt (some g.id) 1 Demo.staticInF1.mb.m_isStatic) ∧
    Demo.staticInF1.mb.m_model = some Demo.probe.MakeInstance ∧
    (∃ s1, RebuildCollisionMesh Demo.staticInF1 = .ok s1 ∧ Reattached Demo.staticInF1 1 s1) := by
  have a1 : Demo.attachedNoModel.Unregistered (some Demo.attachedNoModel.nextGeom) := by
    intro k b
    simp only [State.regCount, Demo.attachedNoModel_frames]
    by_cases hk : k = 1 <;> cases b <;> simp [hk, Frame.partition, Frame.empty]
  have a2 : ∀ g, Demo.attachedNoModel.mb.m_geom = some g →
      Demo.attachedNoModel.RegisteredOnlyAt (some g.id) 1
        Demo.attachedNoModel.mb.m_isStatic := by
    intro g hg
    have : Demo.attachedNoModel.mb.m_geom = none := by decide
    rw [this] at hg
    cases hg
  have b1 : Demo.staticInF1.Unregistered (some Demo.staticInF1.nextGeom) := by
    intro k b
    have hn : Demo.staticInF1.nextGeom = 1 := by decide
    simp only [State.regCount, Demo.staticInF1_frames, hn]
    by_cases hk : k = 1 <;> cases b <;> simp [hk, Frame.partition, Frame.empty]
  have b2 : ∀ g, Demo.staticInF1.mb.m_geom = some g →
      Demo.staticInF1.RegisteredOnlyAt (some g.id) 1 Demo.staticInF1.mb.m_isStatic := by
    intro g hg k b
    have hg0 : Demo.staticInF1.mb.m_geom
        = some (Geom.mk 0 11 (some 7) matrix3x3d.identity vector3d.zero true) := by decide
    rw [hg0] at hg
    cases hg
    have hst : Demo.staticInF1.mb.m_isStatic = true := by decide
    simp only [State.regCount, Demo.staticInF1_frames, hst]
    by_cases hk : k = 1 <;> cases b <;> simp [hk, Frame.partition, Frame.empty]
  exact ⟨rfl, a1, a2, rfl,
    (Rebuild_restores_I1 Demo.attachedNoModel 1 rfl a1 a2).2 Demo.collab "probe" Demo.probe rfl,
    rfl, b1, b2, rfl,
    (Rebuild_restores_I1 Demo.staticInF1 1 rfl b1 b2).1 Demo.probe.MakeInstance rfl⟩

/-- C10 (persistence round trip): the lookup being a function, `Load` of the base
entity and of the model instance consuming exactly what their `Save` wrote, and `E`
holding a model with its radii derived from the model named: `Save` of `E` completes,
and `Load` of what it wrote, followed by anything, into a new entity completes,
leaves exactly what followed, and yields the static flag, colliding flag and model
name of `E`, a proxy, and the physical and clip radii of `E`. -/
theorem Save_Load_round_trip (c : Collab) (E : State) (self : Nat)
    (frames : FrameId → Frame) (nextGeom : Nat) (rest : Stream)
    (hbody : ∀ b0 b rd, ∃ b1, c.bodyLoad b0 (c.bodySave b ++ rd) = some (b1, rd))
    (hmodel : ∀ m0 m rd, ∃ m1, c.modelLoad m0 (c.modelSave m ++ rd) = some (m1, rd))
    (hE : E.ModelDerived c) :
    ∃ wr s1, Save c E [] = .ok wr ∧
      Load c (wr ++ rest) (State.create self frames nextGeom) = .ok (s1, rest) ∧
      s1.mb.m_isStatic = E.mb.m_isStatic ∧
      s1.mb.m_colliding = E.mb.m_colliding ∧
      s1.mb.m_modelName = E.mb.m_modelName ∧
      s1.mb.m_geom.isSome = true ∧
      s1.mb.m_physRadius = E.mb.m_physRadius ∧
      s1.mb.m_clipRadius = E.mb.m_clipRadius := by
  obtain ⟨hne, a, hfind, hclip, hphys⟩ := hE
  obtain ⟨m, hm⟩ := Option.ne_none_iff_exists'.mp hne
  obtain ⟨b1, hb1⟩ := hbody (State.create self frames nextGeom).mb.toBody E.mb.toBody
    (Tok.Bool E.mb.m_isStatic :: Tok.Bool E.mb.m_colliding :: Tok.String E.mb.m_modelName
      :: (c.modelSave m ++ rest))
  obtain ⟨m1, hm1⟩ := hmodel a.MakeInstance m rest
  have hstream : ([] ++ c.bodySave E.mb.toBody ++ [Tok.Bool E.mb.m_isStatic]
      ++ [Tok.Bool E.mb.m_colliding] ++ [Tok.String E.mb.m_modelName] ++ c.modelSave m) ++ rest
      = c.bodySave E.mb.toBody ++ (Tok.Bool E.mb.m_isStatic :: Tok.Bool E.mb.m_colliding
          :: Tok.String E.mb.m_modelName :: (c.modelSave m ++ rest)) := by
    simp
  let s3 := loadedFlags (State.create self frames nextGeom) b1 E.mb.m_isStatic E.mb.m_colliding
  have hg3 : s3.mb.m_geom = none := rfl
  have hset : SetModel c E.mb.m_modelName s3
      = RebuildCollisionMesh (withNewModel s3 E.mb.m_modelName a) :=
    SetModel_found c _ a s3 hfind
  obtain ⟨s4, h4⟩ := Rebuild_completes (withNewModel s3 E.mb.m_modelName a) a.MakeInstance
    (by rw [withNewModel_mb]) (Or.inl (by rw [withNewModel_mb]; exact hg3))
  obtain ⟨m4, hm4, hmb, _, _⟩ := Rebuild_ok _ _ h4
  rw [withNewModel_mb] at hm4
  have hm4a : a.MakeInstance = m4 := by simpa using hm4
  subst hm4a
  have h3 : s4.mb.m_model = some a.MakeInstance := by
    rw [hmb]; simp [rebuiltBody, withNewModel_mb]
  refine ⟨_, { s4 with mb := { s4.mb with m_model := some m1 } }, Save_eq c E m [] hm, ?_, ?_⟩
  · rw [hstream]
    exact Load_eq c _ s4 b1 _ _ _ _ _ rest a.MakeInstance m1 hb1 (by rw [← h4]; exact hset)
      h3 hm1
  · simp only [hmb, rebuiltBody, withNewModel_mb, hclip, hphys]
    simp [s3, loadedFlags]

/-- C10 witness: the entity with `isStatic = true`, `isColliding = false` and model
"ship.craft", saved and loaded into a new entity, with one more record behind it on
the stream. -/
theorem Save_Load_round_trip_witness :
    (∀ b0 b rd, ∃ b1, Demo.collab.bodyLoad b0 (Demo.collab.bodySave b ++ rd) = some (b1, rd)) ∧
    (∀ m0 m rd, ∃ m1, Demo.collab.modelLoad m0 (Demo.collab.modelSave m ++ rd) = some (m1, rd)) ∧
    Demo.shipEntity.ModelDerived Demo.collab ∧
    Demo.shipEntity.mb.m_isStatic = true ∧ Demo.shipEntity.mb.m_colliding = false ∧
    Demo.shipEntity.mb.m_modelName = "ship.craft" ∧
    ∃ wr s1, Save Demo.collab Demo.shipEntity [] = .ok wr ∧
      Load Demo.collab (wr ++ [Tok.Int 42]) (State.create 9 (fun _ => Frame.empty) 0)
        = .ok (s1, [Tok.Int 42]) ∧
      s1.mb.m_isStatic = Demo.shipEntity.mb.m_isStatic ∧
      s1.mb.m_colliding = Demo.shipEntity.mb.m_colliding ∧
      s1.mb.m_modelName = Demo.shipEntity.mb.m_modelName ∧
      s1.mb.m_geom.isSome = true ∧
      s1.mb.m_physRadius = Demo.shipEntity.mb.m_physRadius ∧
      s1.mb.m_clipRadius = Demo.shipEntity.mb.m_clipRadius := by
  have hE : Demo.shipEntity.ModelDerived Demo.collab :=
    ⟨by decide, Demo.shipCraft, rfl, rfl, rfl⟩
  exact ⟨Demo.collab_bodyLoad, Demo.collab_modelLoad, hE, rfl, rfl, rfl,
    Save_Load_round_trip Demo.collab Demo.shipEntity 9 (fun _ => Frame.empty) 0 [Tok.Int 42]
      Demo.collab_bodyLoad Demo.collab_modelLoad hE⟩

/-- C11 (persisted field order): for an entity with a model, `Save` completes and
what it appends to the writer is, in this order and with nothing else, the base
record, the bool `m_isStatic`, the bool `m_colliding`, the string `m_modelName` and
the model instance's record.  `Save` yields the writer only: the method assigns no
field and calls no frame. -/
theorem Save_field_order (c : Collab) (s : State) (m : Model) (wr : Stream)
    (hm : s.mb.m_model = some m) :
    Save c s wr = .ok (wr ++
      (c.bodySave s.mb.toBody ++
        [Tok.Bool s.mb.m_isStatic, Tok.Bool s.mb.m_colliding, Tok.String s.mb.m_modelName] ++
        c.modelSave m)) := by
  rw [Save_eq c s m wr hm]
  simp

/-- C11 witness: the record of the static, non-colliding "ship.craft" entity, written
behind one token already in the writer. -/
theorem Save_field_order_witness :
    Demo.shipEntity.mb.m_model = some Demo.shipCraft.MakeInstance ∧
    Save Demo.collab Demo.shipEntity [Tok.Int 99] = .ok ([Tok.Int 99] ++
      (Demo.collab.bodySave Demo.shipEntity.mb.toBody ++
        [Tok.Bool Demo.shipEntity.mb.m_isStatic, Tok.Bool Demo.shipEntity.mb.m_colliding,
         Tok.String Demo.shipEntity.mb.m_modelName] ++
        Demo.collab.modelSave Demo.shipCraft.MakeInstance)) ∧
    Save Demo.collab Demo.shipEntity [] = .ok Demo.shipRecord :=
  ⟨rfl, Save_field_order Demo.collab Demo.shipEntity Demo.shipCraft.MakeInstance [Tok.Int 99] rfl,
    rfl⟩

/-- C12 (render transform layout): for every arithmetic, interpolated orientation
and position, view offset and view transform there is one transform that
`RenderModel` hands to the model instance of every entity that has one (without a
model instance the call faults); its cells 12, 13, 14 are the narrowed `viewCoords.x`,
`.y`, `.z`, its cell 15 is `1.0f`, and each of its cells 0..11 is the narrowed cell
of `viewTransform` times the interpolated world transform. -/
theorem RenderModel_layout (ar : Arith) (interpOrient : matrix3x3d)
    (interpPosition : vector3d) (trans0 : matrix4x4f) (viewCoords : vector3d)
    (viewTransform : matrix4x4d) :
    ∃ tr : matrix4x4f,
      (∀ s : State,
        RenderModel ar interpOrient interpPosition trans0 viewCoords viewTransform s
          = match s.mb.m_model with
            | some _ => .ok tr
            | none => .error Fault.nullModel) ∧
      tr.cell 12 = ar.narrow viewCoords.x ∧
      tr.cell 13 = ar.narrow viewCoords.y ∧
      tr.cell 14 = ar.narrow viewCoords.z ∧
      tr.cell 15 = Single.one ∧
      ∀ i : Fin 16, i.val < 12 →
        tr.cell i = ar.narrow ((matrix4x4d.mul ar viewTransform
          ((matrix4x4d.ofMatrix3x3 interpOrient).SetTranslate interpPosition)).cell i) :=
  ⟨renderTrans ar interpOrient interpPosition trans0 viewCoords viewTransform,
    fun s => RenderModel_eq ar interpOrient interpPosition trans0 viewCoords viewTransform s,
    renderTrans_cell ar interpOrient interpPosition trans0 viewCoords viewTransform⟩

/-- C13 (SetStatic with a proxy but no frame), at the input where the code departs
from it: the static entity has a proxy and no frame; `SetStatic(false)` calls
`RemoveStaticGeom` through the null `GetFrame()` and does not complete, where the
claim has it complete with the flag flipped and no frame touched. -/
theorem SetStatic_no_frame_faults :
    Demo.staticDetached.mb.m_geom.isSome = true ∧ Demo.staticDetached.mb.m_frame = none ∧
    Demo.staticDetached.mb.m_isStatic = true ∧
    SetStatic false Demo.staticDetached = .error Fault.nullFrame :=
  ⟨by decide, rfl, rfl,
    SetStatic_detached false Demo.staticDetached
      (Geom.mk 0 11 (some 7) matrix3x3d.identity vector3d.zero true) rfl rfl (by decide)⟩

/-- C14 (rebuild with a proxy but no frame), at the input where the code departs
from it: the entity has a model and a proxy and no frame; `RebuildCollisionMesh`, and
a second `SetModel`, call `RemoveGeom` through the null `GetFrame()` and do not
complete, where the claim has the proxy replaced and left unregistered. -/
theorem Rebuild_no_frame_faults :
    Demo.withModel.mb.m_model.isSome = true ∧ Demo.withModel.mb.m_geom.isSome = true ∧
    Demo.withModel.mb.m_frame = none ∧
    RebuildCollisionMesh Demo.withModel = .error Fault.nullFrame ∧
    SetModel Demo.collab "ship.craft" Demo.withModel = .error Fault.nullFrame :=
  ⟨by decide, by decide, rfl,
    Rebuild_detached Demo.withModel
      (Geom.mk 0 11 (some 7) matrix3x3d.identity vector3d.zero true) rfl rfl,
    SetModel_detached Demo.collab "ship.craft" Demo.shipCraft Demo.withModel
      (Geom.mk 0 11 (some 7) matrix3x3d.identity vector3d.zero true) rfl rfl rfl⟩

/-- C15 (enabled flag mirrors isColliding), at the inputs where the code departs from
it: after `SetColliding(false)` then `SetModel("probe")` on a new entity, and after
`Load` of a record whose colliding flag is false, `m_colliding` is false and the
proxy `RebuildCollisionMesh` constructed is enabled. -/
theorem enabled_flag_not_mirrored :
    run Demo.collab [Op.SetColliding false, Op.SetModel "probe"] Demo.fresh
      = .ok (okOr Demo.fresh
          (run Demo.collab [Op.SetColliding false, Op.SetModel "probe"] Demo.fresh)) ∧
    (okOr Demo.fresh (run Demo.collab [Op.SetColliding false, Op.SetModel "probe"]
      Demo.fresh)).mb.m_colliding = false ∧
    (okOr Demo.fresh (run Demo.collab [Op.SetColliding false, Op.SetModel "probe"]
      Demo.fresh)).mb.m_geom.map Geom.active = some true ∧
    ¬ (okOr Demo.fresh (run Demo.collab [Op.SetColliding false, Op.SetModel "probe"]
      Demo.fresh)).EnabledMirrors ∧
    faultOf (run Demo.collab [Op.Load Demo.shipRecord] Demo.fresh9) = none ∧
    (okOr Demo.fresh9 (run Demo.collab [Op.Load Demo.shipRecord] Demo.fresh9)).mb.m_colliding
      = false ∧
    (okOr Demo.fresh9 (run Demo.collab [Op.Load Demo.shipRecord]
      Demo.fresh9)).mb.m_geom.map Geom.active = some true := by
  refine ⟨rfl, by decide, by decide, ?_, by decide, by decide, by decide⟩
  intro h
  have := h (Geom.mk 0 11 (some 7) matrix3x3d.identity vector3d.zero true) rfl
  exact absurd this (by decide)

/-- C16 (matched add/remove pairs), at the input where the code departs from it: on a
new entity `SetFrame(F1)`, `SetStatic(true)`, `SetFrame(null)` all complete, and the
entity issues `AddGeom` on F1 and then `RemoveStaticGeom` on F1, both with the null
`m_geom`: a removal from the static partition of something it never added there. -/
theorem early_calls_unmatched :
    faultOf (run Demo.collab Demo.earlyCalls Demo.fresh) = none ∧
    (okOr Demo.fresh (run Demo.collab Demo.earlyCalls Demo.fresh)).trace
      = [Event.AddGeom 1 none, Event.RemoveStaticGeom 1 none] ∧
    matchedFrom [] (okOr Demo.fresh (run Demo.collab Demo.earlyCalls Demo.fresh)).trace
      = false := by
  decide

/-- C17 (world translation is discarded entirely): for every arithmetic,
interpolated orientation, view offset and view transform, `RenderModel` gives the
same result for any two interpolated positions `p1` and `p2`, and for any two
contents of the uninitialised local `trans`: the transform handed over depends on
the orientation, `viewTransform` and `viewCoords` only. -/
theorem RenderModel_ignores_position (ar : Arith) (interpOrient : matrix3x3d)
    (p1 p2 : vector3d) (a b : matrix4x4f) (viewCoords : vector3d)
    (viewTransform : matrix4x4d) (s : State) :
    RenderModel ar interpOrient p1 a viewCoords viewTransform s
      = RenderModel ar interpOrient p2 b viewCoords viewTransform s := by
  rw [RenderModel_eq, RenderModel_eq,
    renderTrans_position ar interpOrient p1 p2 a b viewCoords viewTransform]

/-- C18 as amended (destroy, then create): for an entity with a model instance and a
proxy, attached to frame `F`, `SetModel(id)` with a name the lookup resolves
completes, and its effects are, in this order: the previous model instance is
destroyed, the new one is made, the old proxy is removed from its partition of `F`
and destroyed, the new proxy is constructed and added to that partition. -/
theorem SetModel_destroys_then_creates (c : Collab) (id : String) (a : ModelAsset)
    (s : State) (old : Model) (g : Geom) (F : FrameId)
    (hfind : c.FindModel id = some a)
    (hm : s.mb.m_model = some old) (hg : s.mb.m_geom = some g)
    (hf : s.mb.m_frame = some F) :
    ∃ s1, SetModel c id s = .ok s1 ∧
      s1.trace = s.trace ++
        [Event.DeleteModel old, Event.NewModel a.MakeInstance,
         if s.mb.m_isStatic then Event.RemoveStaticGeom F (some g.id)
           else Event.RemoveGeom F (some g.id),
         Event.DeleteGeom g.id, Event.NewGeom s.nextGeom,
         if s.mb.m_isStatic then Event.AddStaticGeom F (some s.nextGeom)
           else Event.AddGeom F (some s.nextGeom)] := by
  have hmb := withNewModel_mb s id a
  obtain ⟨s1, h1, h2⟩ := Rebuild_attached_trace (withNewModel s id a) g F a.MakeInstance
    (by rw [hmb]) (by rw [hmb]; exact hg) (by rw [hmb]; exact hf)
  refine ⟨s1, by rw [SetModel_found c id a s hfind]; exact h1, ?_⟩
  rw [h2, withNewModel_trace, hm, (withNewModel_frames s id a).2, hmb]
  simp

/-- C18 witness of the amended claim: `SetModel("ship.craft")` on the entity that
holds "probe" with its proxy registered in F1. -/
theorem SetModel_destroys_then_creates_witness :
    Demo.collab.FindModel "ship.craft" = some Demo.shipCraft ∧
    Demo.inF1.mb.m_model = some Demo.probe.MakeInstance ∧
    Demo.inF1.mb.m_geom
      = some (Geom.mk 0 11 (some 7) matrix3x3d.identity vector3d.zero true) ∧
    Demo.inF1.mb.m_frame = some 1 ∧
    ∃ s1, SetModel Demo.collab "ship.craft" Demo.inF1 = .ok s1 ∧
      s1.trace = Demo.inF1.trace ++
        [Event.DeleteModel Demo.probe.MakeInstance, Event.NewModel Demo.shipCraft.MakeInstance,
         if Demo.inF1.mb.m_isStatic then Event.RemoveStaticGeom 1 (some 0)
           else Event.RemoveGeom 1 (some 0),
         Event.DeleteGeom 0, Event.NewGeom Demo.inF1.nextGeom,
         if Demo.inF1.mb.m_isStatic then Event.AddStaticGeom 1 (some Demo.inF1.nextGeom)
           else Event.AddGeom 1 (some Demo.inF1.nextGeom)] :=
  ⟨rfl, rfl, rfl, rfl,
    SetModel_destroys_then_creates Demo.collab "ship.craft" Demo.shipCraft Demo.inF1
      Demo.probe.MakeInstance (Geom.mk 0 11 (some 7) matrix3x3d.identity vector3d.zero true) 1
      rfl rfl rfl rfl⟩

/-- C18 as stated fails: on the entity that holds "probe" with its proxy registered
in F1, `SetModel("ship.craft")` completes with the effects listed, in which the new
model instance is not made before the old one is destroyed and the new proxy is not
constructed before the old one is destroyed. -/
theorem create_before_destroy_fails :
    faultOf (SetModel Demo.collab "ship.craft" Demo.inF1) = none ∧
    (okOr Demo.inF1 (SetModel Demo.collab "ship.craft" Demo.inF1)).trace
      = Demo.inF1.trace ++ Demo.swapEffects ∧
    occursBefore (Event.NewModel Demo.shipCraft.MakeInstance)
      (Event.DeleteModel Demo.probe.MakeInstance) Demo.swapEffects = false ∧
    occursBefore (Event.NewGeom 1) (Event.DeleteGeom 0) Demo.swapEffects = false := by
  decide

/-- C19 (destruction detaches first): for an entity that keeps invariant I1, the
destructor first performs `SetFrame(null)`, after which the entity has no frame and
its proxy, if any, is registered in no partition of any frame; only then it records
the release of the proxy and then of the model instance, which touch no registry; and
the registrations of every pointer other than the entity's own are as before. -/
theorem Destructor_detaches_first (s : State) (h : s.I1) :
    (SetFrame none s).mb.m_frame = none ∧
    (∀ g, s.mb.m_geom = some g → (SetFrame none s).Unregistered (some g.id)) ∧
    (Destructor s).frames = (SetFrame none s).frames ∧
    (Destructor s).trace = (SetFrame none s).trace ++
      (match s.mb.m_geom with
       | some g => [Event.DeleteGeom g.id]
       | none => []) ++
      (match s.mb.m_model with
       | some m => [Event.DeleteModel m]
       | none => []) ∧
    (∀ g, s.mb.m_geom = some g → (Destructor s).Unregistered (some g.id)) ∧
    (∀ p, p ≠ s.mb.geomPtr → ∀ k b, (Destructor s).regCount k b p = s.regCount k b p) := by
  obtain ⟨_, hfr, htr⟩ := Destructor_eq s
  have hI := SetFrame_I1 none s h
  have hmb := SetFrame_mb none s
  have hun : ∀ g, s.mb.m_geom = some g → (SetFrame none s).Unregistered (some g.id) := by
    intro g hg
    have := hI g (by rw [hmb]; exact hg)
    rw [hmb] at this
    exact this
  refine ⟨by rw [hmb], hun, hfr, htr, ?_, ?_⟩
  · intro g hg k b
    have := hun g hg k b
    simpa [State.regCount, hfr] using this
  · intro p hp k b
    have := SetFrame_others none s p hp k b
    simpa [State.regCount, hfr] using this

/-- C19 witness: the static entity of the scenario, registered in F2, destroyed. -/
theorem Destructor_detaches_first_witness :
    Demo.staticInF2.I1 ∧
    ((SetFrame none Demo.staticInF2).mb.m_frame = none ∧
    (∀ g, Demo.staticInF2.mb.m_geom = some g →
      (SetFrame none Demo.staticInF2).Unregistered (some g.id)) ∧
    (Destructor Demo.staticInF2).frames = (SetFrame none Demo.staticInF2).frames ∧
    (Destructor Demo.staticInF2).trace = (SetFrame none Demo.staticInF2).trace ++
      (match Demo.staticInF2.mb.m_geom with
       | some g => [Event.DeleteGeom g.id]
       | none => []) ++
      (match Demo.staticInF2.mb.m_model with
       | some m => [Event.DeleteModel m]
       | none => []) ∧
    (∀ g, Demo.staticInF2.mb.m_geom = some g →
      (Destructor Demo.staticInF2).Unregistered (some g.id)) ∧
    (∀ p, p ≠ Demo.staticInF2.mb.geomPtr →
      ∀ k b, (Destructor Demo.staticInF2).regCount k b p = Demo.staticInF2.regCount k b p)) ∧
    (Destructor Demo.staticInF2).trace = Demo.staticInF2.trace ++
      [Event.RemoveStaticGeom 2 (some 0), Event.DeleteGeom 0,
       Event.DeleteModel Demo.probe.MakeInstance] ∧
    (Destructor Demo.staticInF2).frames 2 = Frame.empty :=
  ⟨Demo.staticInF2_I1, Destructor_detaches_first Demo.staticInF2 Demo.staticInF2_I1,
    by decide, by decide⟩

end Pioneer
